import Mathlib

/-!
Shallow embedding of the epidemic-mitigation simulator
(`src/epidemic_mitigation.py`, class `DiseaseMitigation`) and of the
calibration engine (`src/epidemiological_model_parameter_computation.py`,
class `ParameterComputation`).

Modelling conventions:
* Python floats are modelled as exact rationals (`ℚ`); decimal literals are
  read exactly.
* Python `int(x)` (truncation toward zero) is `pyInt`.
* The per-step Gaussian parameter samples of `compute_population_dynamics`
  are resolved inputs: a `Draws` record holds the sampled value of each of
  the 29 per-step draws (the distributional relation between a draw and its
  calibrated mean is irrelevant to the properties proved here, which
  quantify over every possible outcome).
* Python's float power `x ** alpha` is transcendental; it is modelled by an
  explicit function argument `fpow : ℚ → ℚ → ℚ` threaded through the
  dynamics, applied exactly where the source applies `**`.
* The historical dataset (a CSV read at construction, not part of the
  sources) is modelled by accessor functions from the row index to the
  column value, as the code only reads it pointwise via `.iloc`.
* The write-only plotting lists (`*_list` fields) of the Python class are
  not carried in the state; `new_cases` is kept since it is a named output
  of the update.
-/

namespace EpidemicMitigation

/-- Python `int()` applied to a float: truncation toward zero. -/
def pyInt (q : ℚ) : ℤ := if 0 ≤ q then ⌊q⌋ else ⌈q⌉

/-- `__init__`: `self.infection_coefficient = 500_000`. -/
def infection_coefficient : ℚ := 500000

/-- `__init__`: `self.max_timesteps = 181`. -/
def max_timesteps : ℕ := 181

/-- `__init__`: minimum intervention durations (lines 355-359). -/
def min_no_npm_pm_period : ℕ := 14
def min_sdm_period : ℕ := 28
def min_lockdown_period : ℕ := 14
def min_mask_mandate_period : ℕ := 28
def min_vaccination_mandate_period : ℕ := 0

/-- `__init__`: maximum intervention durations (lines 361-365). -/
def max_no_npm_pm_period : ℕ := 56
def max_sdm_period : ℕ := 112
def max_lockdown_period : ℕ := 42
def max_mask_mandate_period : ℕ := 180
def max_vaccination_mandate_period : ℕ := 0

/-- `__init__`: the 15-entry per-epoch mixing exponent table `self.alpha`. -/
def alpha_table : List ℚ :=
  [0.9921061737800656, 0.999999999999382, 0.9997006558362771, 0.9968623277813831,
   0.9999999976899998, 0.9999999999934777, 0.9999832708276221, 0.9999977204877676,
   0.999990484796472, 0.9999998603343343, 0.9999994613134795, 0.8667971932071317,
   0.9987829564173087, 0.9242816529512278, 0.8913601714594757]

/-- `__init__`: the 15-entry per-epoch exposure-rate table `self.beta_original`. -/
def beta_original : List ℚ :=
  [4.979203079794559, 4.97458653699875, 4.998978463651875, 4.150487813293975,
   4.999575013079198, 4.99997112741788, 4.878199450296301, 4.902405795261032,
   4.999999999999789, 3.3489137022430944, 4.999972601990617, 3.6779583437607575,
   1.6469992682905124, 2.129861260361653, 4.204429178608633]

/-- `__init__`: hospitalization rate tables `self.delta_uv/fv/bv`. -/
def delta_uv_table : List ℚ :=
  [0.0025502796914869566, 1.1927977532355527e-14, 0.00033590586973677593, 0.004439027683949327,
   0.004444439879977823, 0.004438688228942953, 0.003410784678446129, 0.0019063365305083818,
   0.002738613153107736, 0.0031973457209689992, 0.0012563474592947861, 0.0015391354807226135,
   0.0003191149877727051, 0.0028976182507645257, 0.0009689996872575844]

def delta_fv_table : List ℚ :=
  [0.0013644550830824043, 7.998410292233626e-10, 0.004441947264565481, 0.00310033406963474,
   0.003111528871142363, 0.0021878944815369207, 0.003842754738498646, 3.0471233519136476e-05,
   0.0008992145473468121, 0.000546659225923523, 0.0004165955972560249, 0.00040581377314839235,
   0.0012433423734815078, 0.0029025653261004203, 0.0013589929204257342]

def delta_bv_table : List ℚ :=
  [0.000516666, 0.000516666, 0.000516666, 0.000516666, 0.000516666, 0.000516666,
   0.004435513215501976, 0.0008285269025012719, 0.0010351714630686705, 0.00035536520680206913,
   0.000436249724771229, 0.0003222169211899946, 0.00028863269709794153, 0.0011291977574560646,
   0.0004754980986263272]

/-- `__init__`: recovery rate tables `self.gamma_i_uv/fv/bv`, `self.gamma_h_uv/fv/bv`. -/
def gamma_i_uv_table : List ℚ :=
  [0.05454324458277713, 0.054999999999984624, 0.05493914662841438, 0.05499990759397898,
   0.05499806747662576, 0.04100138873053479, 0.05477290137597402, 0.053825419002336575,
   0.054529234511264964, 0.04000000000000034, 0.046392374251813036, 0.054999713367516335,
   0.04000004218536563, 0.0400000026033707, 0.04012178719368275]

def gamma_i_fv_table : List ℚ :=
  [0.05499214815619127, 0.051716264016610655, 0.05496900364583629, 0.05461994710842431,
   0.05499999997555863, 0.04747274559193559, 0.05326993709415978, 0.054999468572432986,
   0.05499999748127864, 0.045000001732971695, 0.052260588208621334, 0.054998278481102426,
   0.045000030630856995, 0.05443487833553049, 0.05474162345518843]

def gamma_i_bv_table : List ℚ :=
  [0.053, 0.053, 0.053, 0.053, 0.053, 0.053, 0.047527421385129165, 0.047512182262614014,
   0.04753550670362312, 0.047500000000000084, 0.06175487524141818, 0.06499802339400954,
   0.047500619893717684, 0.04753664736862204, 0.06291341416198146]

def gamma_h_uv_table : List ℚ :=
  [0.03467454100259981, 0.025387756477381746, 0.025004448376817784, 0.02761422403317452,
   0.025000000000236458, 0.05251118105209822, 0.0549110466748263, 0.033067036304681066,
   0.025000016934706253, 0.05499999999986076, 0.04197826269230298, 0.04834864909249086,
   0.026320057827536415, 0.02500001559861162, 0.025028212484802824]

def gamma_h_fv_table : List ℚ :=
  [0.030290563140145815, 0.030000000000000207, 0.03185761802081461, 0.04204778355488563,
   0.05354273969484376, 0.054191972978106906, 0.04554706163804386, 0.030000011314920128,
   0.03038156224719357, 0.05499999999999999, 0.04614880587376313, 0.04269476504178644,
   0.03418548843830638, 0.030676406640121834, 0.03000935720574363]

def gamma_h_bv_table : List ℚ :=
  [0.0377777, 0.0377777, 0.0377777, 0.0377777, 0.0377777, 0.0377777, 0.05024106727480235,
   0.06122977561546748, 0.03339888791458119, 0.030000018417240464, 0.05951600677771558,
   0.04358177542024513, 0.03491646714746562, 0.06491527721233392, 0.04218485117522834]

/-- `__init__`: death rate tables `self.mu_i_uv/fv/bv`, `self.mu_h_uv/fv/bv`. -/
def mu_i_uv_table : List ℚ :=
  [0.0011898381320066536, 0.0016461696490861401, 5.557756084789282e-05, 0.0025929773893008544,
   0.003332580613624076, 0.00038434227102280644, 0.0014475754401885475, 0.0006446404408645657,
   0.00045090847272443433, 5.5555550000155024e-05, 0.0002842322533048449, 0.0033331446010170136,
   0.0001346545061541397, 0.00016510386851820654, 0.001174139354820452]

def mu_i_fv_table : List ℚ :=
  [0.000968991153713453, 0.0008031958184529309, 5.555555000134667e-06, 0.0007799791561391193,
   0.00012356244610305732, 0.00028252658788236753, 0.0009695630490258248, 0.0007025163121404912,
   0.0005389402123607347, 0.00022287710504662042, 0.0003852112799188121, 0.0028162301234761593,
   1.658517276642031e-05, 0.00012902217569051903, 0.00020343028748589007]

def mu_i_bv_table : List ℚ :=
  [5.555555000000009e-06, 5.555555000000009e-06, 5.555555000000009e-06, 5.555555000000009e-06,
   5.555555000000009e-06, 5.555555000000009e-06, 0.00023056307212302528, 0.00016819448709593123,
   3.36418613048688e-05, 0.0002482277445804881, 0.0003162945618154334, 0.0012679416366859486,
   0.000820640351487956, 1.709677015416232e-05, 0.00017848713214707823]

def mu_h_uv_table : List ℚ :=
  [0.0065387373871696065, 0.0027777723418094774, 0.0027777707610357793, 0.0027796898070118975,
   0.002908950156740234, 0.002813558388157619, 0.007375748874639409, 0.0027833913951630404,
   0.002781769011272498, 0.011425345371481198, 0.007260659510285804, 0.011103496703024114,
   0.0027786870476711072, 0.0027777753029138794, 0.002778499268413278]

def mu_h_fv_table : List ℚ :=
  [0.0007779467358999902, 0.0036787721921557924, 0.012782730610475765, 0.0007780821739797155,
   0.010918170242898977, 0.01065527161079136, 0.013786555042614205, 0.0007777747122808551,
   0.000782712451470584, 0.013888879999999729, 0.006634152071829002, 0.007622872559056293,
   0.005436367402536328, 0.0014393769862645256, 0.0007832171167080535]

def mu_h_bv_table : List ℚ :=
  [0.0008777700000000002, 0.0008777700000000002, 0.0008777700000000002, 0.0008777700000000002,
   0.0008777700000000002, 0.0008777700000000002, 0.00978766881560744, 0.013888851250363472,
   0.0073671130602453875, 0.01388887999999899, 0.013887747182280856, 0.01253248402718307,
   0.0033045026940641932, 0.013875288010646254, 0.0020271548979584873]

/-- `__init__`: exposed-to-susceptible/recovered rate tables `self.sigma_s_*`, `self.sigma_r_*`. -/
def sigma_s_uv_table : List ℚ :=
  [0.2797044028880083, 0.34431409936925694, 0.3580504182316429, 0.1166177252469825,
   0.16997197499388433, 0.23405769641743218, 0.2769261712186397, 0.2566061899692816,
   0.174547479075425, 0.0, 0.15547516429999247, 0.02161976137750099, 0.00810782879033839,
   0.0018613327530079271, 2.7699159632632586e-10]

def sigma_s_fv_table : List ℚ :=
  [0.2662392505973987, 0.33212344139038685, 0.3261725159472545, 0.1490687843082517,
   0.17262913177692407, 0.2511983728144259, 0.29030016577761925, 0.26604931009425203,
   0.19978065051003357, 0.019989520104101544, 0.29600857702146344, 0.09553721531017201,
   0.03525179288803204, 0.013619697748734672, 0.2665718014138282]

def sigma_s_bv_table : List ℚ :=
  [0.5, 0.5, 0.5, 0.5, 0.5, 0.14985202566588945, 0.21973900778289351, 0.2599201628582599,
   0.20235521660244826, 0.021243110081864858, 0.3154426026890688, 0.07282721934828185,
   0.06104703495295127, 0.014707636143268588, 0.23840873738908486]

def sigma_r_uv_table : List ℚ :=
  [0.03953448795218578, 0.058203388178277304, 0.032928459326050485, 0.0515539619520361,
   0.034443635234412906, 0.059315200907886834, 0.07371744803997626, 0.08680504616510387,
   0.09303842995851996, 0.09084809679551148, 0.9042612659047722, 0.7424077412987622,
   0.9062605142439981, 0.9961753414307617, 3.271895679946013e-07]

def sigma_r_fv_table : List ℚ :=
  [0.019437664121463194, 0.021335162733075785, 0.029657269748876447, 0.011550470005043612,
   0.022108016565385413, 0.026750229515834056, 0.027068151213753, 0.032421554164926925,
   0.02804895096106269, 0.018719326095313793, 0.06399355798909162, 0.03261880318624616,
   0.03236626547518978, 0.0027465977594754443, 0.011397488403402434]

def sigma_r_bv_table : List ℚ :=
  [0.5, 0.5, 0.5, 0.5, 0.5, 0.36269708395031774, 0.0765039340194445, 0.04085645680385164,
   0.0319032123657676, 0.01950260146638827, 0.0672133875063915, 0.05921676760645461,
   0.00578248066924314, 0.0016780890594801368, 0.03637156804177161]

/-- `__init__`: infection rate tables `self.zeta_s_*`, `self.zeta_r_*`. -/
def zeta_s_uv_table : List ℚ :=
  [0.0007318991017170318, 0.0011574000234550435, 0.0017036948546286818, 0.004362887453730158,
   0.013457377607078725, 0.006346703985227398, 0.011831358692383566, 0.01252818896039103,
   0.020312861456003757, 0.033087401587158706, 0.01400141647252155, 0.0008811232498273897,
   0.049999988741923546, 0.04999999994431923, 6.647410305418711e-06]

def zeta_s_fv_table : List ℚ :=
  [6.1106906552897415e-06, 0.00013962269248590849, 0.00027731392827476555,
   0.0008033915116582933, 0.0013398147739391419, 0.0006858134315300495, 0.00034256391767068574,
   0.0003035016049242131, 0.00046329586694962636, 0.0011518632138663876, 5.289629342576374e-07,
   2.5765181231485192e-08, 0.00015346896176303293, 0.00031249562807744675, 1.929435442860061e-09]

def zeta_s_bv_table : List ℚ :=
  [0.0003000000000000001, 0.0003000000000000001, 0.0003000000000000001, 0.0003000000000000001,
   0.0003000000000000001, 0.001149491404118182, 0.004036702171532546, 3.397575846220136e-10,
   0.0001682986024646966, 0.000999212015626945, 0.00019274732954734208, 5.880573818801605e-05,
   0.0009881243669758186, 0.001658550667957768, 0.0005631708299375719]

def zeta_r_uv_table : List ℚ :=
  [0.0024909333130088587, 0.0007187527866670652, 0.00023545233240417074, 0.0057906673455601744,
   6.310338210774314e-07, 0.0011364601214976788, 0.00063194566537908, 1.2389820280844788e-10,
   2.420593336882604e-09, 0.0033726612629533664, 8.856118519284806e-06, 5.118492442954259e-06,
   0.04999942155546967, 0.049999999998551835, 1.127830620561987e-08]

def zeta_r_fv_table : List ℚ :=
  [0.0006450657128552588, 1.2115125569422958e-13, 2.265172591711384e-06, 0.00021820919238626935,
   1.872674237901606e-12, 4.2976049414082955e-06, 2.0901160795103735e-06, 6.318968785489765e-07,
   1.0528939442533414e-10, 2.8798764222455142e-05, 0.0003786947524119257, 1.621949413471713e-08,
   0.00022645875956498336, 0.000495940501522658, 0.000724824228763912]

def zeta_r_bv_table : List ℚ :=
  [0.004, 0.004, 0.004, 0.004, 0.004, 0.006979005796484052, 0.0010701088453985836,
   0.0013051640745155204, 0.0006450084026508098, 0.0010040242434811648, 0.0005112768916504632,
   7.871312454313601e-05, 0.0009921237117573275, 0.0015537442266259076, 0.002874814750625074]

/-- The 23 per-epoch parameter tables indexed by `epoch_index`. -/
def parameter_tables : List (List ℚ) :=
  [alpha_table, beta_original,
   delta_uv_table, delta_fv_table, delta_bv_table,
   gamma_i_uv_table, gamma_i_fv_table, gamma_i_bv_table,
   gamma_h_uv_table, gamma_h_fv_table, gamma_h_bv_table,
   mu_i_uv_table, mu_i_fv_table, mu_i_bv_table,
   mu_h_uv_table, mu_h_fv_table, mu_h_bv_table,
   sigma_s_uv_table, sigma_s_fv_table, sigma_s_bv_table,
   zeta_s_uv_table, zeta_s_fv_table, zeta_s_bv_table]

/-- The remaining tables (`zeta_r_*`, `sigma_r_*` are included above only in part);
full list of all tier rate tables. -/
def all_parameter_tables : List (List ℚ) :=
  parameter_tables ++ [sigma_r_uv_table, sigma_r_fv_table, sigma_r_bv_table,
    zeta_r_uv_table, zeta_r_fv_table, zeta_r_bv_table]

/-- `step`, line 599 (and `compute_population_dynamics`, line 982):
`index = int(np.floor((self.timestep + 214) / 28))`.
For a natural-number timestep this is natural division by 28. -/
def epoch_index (timestep : ℕ) : ℕ := (timestep + 214) / 28

/-- One resolved outcome of the 29 Gaussian draws of
`compute_population_dynamics` (lines 984-1070): the value each
`np.random.normal(mu, 0.05 * mu, 1)` sample took. -/
structure Draws where
  beta : ℚ
  alpha : ℚ
  delta_uv : ℚ
  delta_fv : ℚ
  delta_bv : ℚ
  gamma_i_uv : ℚ
  gamma_i_fv : ℚ
  gamma_i_bv : ℚ
  gamma_h_uv : ℚ
  gamma_h_fv : ℚ
  gamma_h_bv : ℚ
  mu_i_uv : ℚ
  mu_i_fv : ℚ
  mu_i_bv : ℚ
  mu_h_uv : ℚ
  mu_h_fv : ℚ
  mu_h_bv : ℚ
  sigma_s_uv : ℚ
  sigma_s_fv : ℚ
  sigma_s_bv : ℚ
  sigma_r_uv : ℚ
  sigma_r_fv : ℚ
  sigma_r_bv : ℚ
  zeta_s_uv : ℚ
  zeta_s_fv : ℚ
  zeta_s_bv : ℚ
  zeta_r_uv : ℚ
  zeta_r_fv : ℚ
  zeta_r_bv : ℚ

/-- Pointwise accessors for the two vaccination-uptake columns of the
historical dataset `self.covid_data` (read via `.iloc[row]`). -/
structure CovidData where
  pctUVtoFV : ℕ → ℚ
  pctFVtoBV : ℕ → ℚ

/-- The mutable instance state of `DiseaseMitigation` that the `step`
contract depends on (compartments, totals, action bookkeeping). -/
structure EnvState where
  population : ℚ
  s_uv : ℚ
  s_fv : ℚ
  s_bv : ℚ
  e_uv : ℚ
  e_fv : ℚ
  e_bv : ℚ
  i_uv : ℚ
  i_fv : ℚ
  i_bv : ℚ
  h_uv : ℚ
  h_fv : ℚ
  h_bv : ℚ
  r_uv : ℚ
  r_fv : ℚ
  r_bv : ℚ
  d_uv : ℚ
  d_fv : ℚ
  d_bv : ℚ
  susceptible : ℚ
  exposed : ℚ
  infected : ℚ
  hospitalized : ℚ
  recovered : ℚ
  deceased : ℚ
  uv_total : ℚ
  fv_total : ℚ
  bv_total : ℚ
  economic_and_social_rate : ℚ
  beta : ℚ
  timestep : ℕ
  action_history : List ℕ
  previous_action : ℕ
  current_action : ℕ
  no_npm_pm_counter : ℕ
  sdm_counter : ℕ
  lockdown_counter : ℕ
  mask_mandate_counter : ℕ
  vaccination_mandate_counter : ℕ
  allowed_actions : List Bool
  required_actions : List Bool
  allowed_actions_numbers : Option (List ℕ)
  new_cases : List ℤ

/-- `compute_population_dynamics`, line 972: the fixed historical-average
unvaccinated-to-fully-vaccinated uptake rate forced by actions 3, 5, 6, 7. -/
def fixed_uv_to_fv_rate : ℚ := 0.007084760245099044

/-- `compute_population_dynamics`, lines 971-980: the action-dependent
selection of the unvaccinated-to-fully-vaccinated uptake rate. -/
def select_pct_uv_to_fv (action : ℕ) (data : CovidData) (timestep : ℕ) : ℚ :=
  if action = 3 ∨ action = 5 ∨ action = 6 ∨ action = 7 then fixed_uv_to_fv_rate
  else data.pctUVtoFV (timestep + 214)

/-- `compute_population_dynamics` (lines 966-1385): one day of the discrete
population update. The local draw variables are the fields of `d`; `fpow`
models the float power used in `number_of_infected_individuals ** alpha`;
`int(...)` truncation is `pyInt`. The trailing synchronization block of the
source is the record update below. -/
def compute_population_dynamics (env : EnvState) (action : ℕ) (d : Draws)
    (fpow : ℚ → ℚ → ℚ) (data : CovidData) : EnvState :=
  let p_uf : ℚ := select_pct_uv_to_fv action data env.timestep
  let p_fb : ℚ := data.pctFVtoBV (env.timestep + 214)
  let ipow : ℚ := fpow env.infected d.alpha
  let P : ℚ := env.population
  -- Susceptible compartment
  let s_uv2 : ℤ := pyInt (env.s_uv - d.beta * env.s_uv * ipow / P
      + d.sigma_s_uv * env.e_uv - p_uf * env.s_uv)
  let s_fv2 : ℤ := pyInt (env.s_fv - d.beta * env.s_fv * ipow / P
      + d.sigma_s_fv * env.e_fv + p_uf * env.s_uv - p_fb * env.s_fv)
  let s_bv2 : ℤ := pyInt (env.s_bv - d.beta * env.s_bv * ipow / P
      + d.sigma_s_bv * env.e_bv + p_fb * env.s_fv)
  -- Exposed compartment
  let e_uv2 : ℤ := pyInt (env.e_uv + d.beta * env.s_uv * ipow / P
      + d.beta * env.r_uv * ipow / P
      - d.zeta_s_uv * env.e_uv - d.zeta_r_uv * env.e_uv
      - d.sigma_s_uv * env.e_uv - d.sigma_r_uv * env.e_uv - p_uf * env.e_uv)
  let e_fv2 : ℤ := pyInt (env.e_fv + d.beta * env.s_fv * ipow / P
      + d.beta * env.r_fv * ipow / P
      - d.zeta_s_fv * env.e_fv - d.zeta_r_fv * env.e_fv
      - d.sigma_s_fv * env.e_fv - d.sigma_r_fv * env.e_fv
      + p_uf * env.e_uv - p_fb * env.e_fv)
  let e_bv2 : ℤ := pyInt (env.e_bv + d.beta * env.s_bv * ipow / P
      + d.beta * env.r_bv * ipow / P
      - d.zeta_s_bv * env.e_bv - d.zeta_r_bv * env.e_bv
      - d.sigma_s_bv * env.e_bv - d.sigma_r_bv * env.e_bv + p_fb * env.e_fv)
  -- Infected compartment
  let i_uv2 : ℤ := pyInt (env.i_uv + d.zeta_s_uv * env.e_uv + d.zeta_r_uv * env.e_uv
      - d.delta_uv * env.i_uv - d.gamma_i_uv * env.i_uv - d.mu_i_uv * env.i_uv)
  let i_fv2 : ℤ := pyInt (env.i_fv + d.zeta_s_fv * env.e_fv + d.zeta_r_fv * env.e_fv
      - d.delta_fv * env.i_fv - d.gamma_i_fv * env.i_fv - d.mu_i_fv * env.i_fv)
  let i_bv2 : ℤ := pyInt (env.i_bv + d.zeta_s_bv * env.e_bv + d.zeta_r_bv * env.e_bv
      - d.delta_bv * env.i_bv - d.gamma_i_bv * env.i_bv - d.mu_i_bv * env.i_bv)
  let new_case : ℤ := pyInt (d.zeta_s_uv * env.e_uv + d.zeta_r_uv * env.e_uv
      + d.zeta_s_fv * env.e_fv + d.zeta_r_fv * env.e_fv
      + d.zeta_s_bv * env.e_bv + d.zeta_r_bv * env.e_bv)
  -- Hospitalized compartment
  let h_uv2 : ℤ := pyInt (env.h_uv + d.delta_uv * env.i_uv
      - d.gamma_h_uv * env.h_uv - d.mu_h_uv * env.h_uv)
  let h_fv2 : ℤ := pyInt (env.h_fv + d.delta_fv * env.i_fv
      - d.gamma_h_fv * env.h_fv - d.mu_h_fv * env.h_fv)
  let h_bv2 : ℤ := pyInt (env.h_bv + d.delta_bv * env.i_bv
      - d.gamma_h_bv * env.h_bv - d.mu_h_bv * env.h_bv)
  -- Recovered compartment
  let r_uv2 : ℤ := pyInt (env.r_uv - d.beta * env.r_uv * ipow / P
      + d.sigma_r_uv * env.e_uv + d.gamma_i_uv * env.i_uv
      + d.gamma_h_uv * env.h_uv - p_uf * env.r_uv)
  let r_fv2 : ℤ := pyInt (env.r_fv - d.beta * env.r_fv * ipow / P
      + d.sigma_r_fv * env.e_fv + d.gamma_i_fv * env.i_fv
      + d.gamma_h_fv * env.h_fv + p_uf * env.r_uv - p_fb * env.r_fv)
  let r_bv2 : ℤ := pyInt (env.r_bv - d.beta * env.r_bv * ipow / P
      + d.sigma_r_bv * env.e_bv + d.gamma_i_bv * env.i_bv
      + d.gamma_h_bv * env.h_bv + p_fb * env.r_fv)
  -- Deceased compartment
  let d_uv2 : ℤ := pyInt (env.d_uv + d.mu_i_uv * env.i_uv + d.mu_h_uv * env.h_uv)
  let d_fv2 : ℤ := pyInt (env.d_fv + d.mu_i_fv * env.i_fv + d.mu_h_fv * env.h_fv)
  let d_bv2 : ℤ := pyInt (env.d_bv + d.mu_i_bv * env.i_bv + d.mu_h_bv * env.h_bv)
  -- Population dynamics by vaccination status (lines 1320-1332; the fully-
  -- and booster-vaccinated updates read the already-updated previous total).
  let uv2 : ℚ := env.uv_total - p_uf * env.uv_total
  let fv2 : ℚ := env.fv_total + p_uf * uv2 - p_fb * env.fv_total
  let bv2 : ℚ := env.bv_total + p_fb * fv2
  { env with
    beta := d.beta,
    s_uv := (s_uv2 : ℚ), s_fv := (s_fv2 : ℚ), s_bv := (s_bv2 : ℚ),
    susceptible := ((s_uv2 + s_fv2 + s_bv2 : ℤ) : ℚ),
    e_uv := (e_uv2 : ℚ), e_fv := (e_fv2 : ℚ), e_bv := (e_bv2 : ℚ),
    exposed := ((e_uv2 + e_fv2 + e_bv2 : ℤ) : ℚ),
    i_uv := (i_uv2 : ℚ), i_fv := (i_fv2 : ℚ), i_bv := (i_bv2 : ℚ),
    infected := ((i_uv2 + i_fv2 + i_bv2 : ℤ) : ℚ),
    h_uv := (h_uv2 : ℚ), h_fv := (h_fv2 : ℚ), h_bv := (h_bv2 : ℚ),
    hospitalized := ((h_uv2 + h_fv2 + h_bv2 : ℤ) : ℚ),
    r_uv := (r_uv2 : ℚ), r_fv := (r_fv2 : ℚ), r_bv := (r_bv2 : ℚ),
    recovered := ((r_uv2 + r_fv2 + r_bv2 : ℤ) : ℚ),
    d_uv := (d_uv2 : ℚ), d_fv := (d_fv2 : ℚ), d_bv := (d_bv2 : ℚ),
    deceased := ((d_uv2 + d_fv2 + d_bv2 : ℤ) : ℚ),
    uv_total := uv2, fv_total := fv2, bv_total := bv2,
    new_cases := env.new_cases ++ [new_case] }

/-- The per-action effects of `step`, lines 602-705: the new exposure-rate
baseline `self.beta`, the new economic-and-social rate, and the five
consecutive-day counters. An action outside 0..11 matches no branch and
leaves all of them unchanged. -/
structure ActionEffects where
  beta : ℚ
  rate : ℚ
  no_npm_pm : ℕ
  sdm : ℕ
  lockdown : ℕ
  mask_mandate : ℕ
  vaccination_mandate : ℕ

def action_effects (env : EnvState) (action : ℕ) (index : ℕ) : ActionEffects :=
  match action with
  | 0 =>
    { beta := if (0.001 : ℚ) ≤ env.infected / env.population
        then beta_original.getD index 0 * 1.4 else beta_original.getD index 0 * 1.1,
      rate := if env.infected / env.population < (0.001 : ℚ)
        then min (1.005 * env.economic_and_social_rate) 100
        else 0.999 * env.economic_and_social_rate,
      no_npm_pm := env.no_npm_pm_counter + 1, sdm := 0, lockdown := 0,
      mask_mandate := 0, vaccination_mandate := 0 }
  | 1 =>
    { beta := beta_original.getD index 0 * 0.95,
      rate := env.economic_and_social_rate * 0.9965,
      no_npm_pm := 0, sdm := env.sdm_counter + 1, lockdown := 0,
      mask_mandate := 0, vaccination_mandate := 0 }
  | 2 =>
    { beta := beta_original.getD index 0 * 0.85,
      rate := env.economic_and_social_rate * 0.997,
      no_npm_pm := 0, sdm := 0, lockdown := env.lockdown_counter + 1,
      mask_mandate := 0, vaccination_mandate := 0 }
  | 3 =>
    { beta := beta_original.getD index 0 * 0.925,
      rate := env.economic_and_social_rate * 0.9965,
      no_npm_pm := 0, sdm := 0, lockdown := 0,
      mask_mandate := env.mask_mandate_counter + 1, vaccination_mandate := 0 }
  | 4 =>
    { beta := beta_original.getD index 0 * 0.95,
      rate := env.economic_and_social_rate * 0.994,
      no_npm_pm := 0, sdm := 0, lockdown := 0,
      mask_mandate := 0, vaccination_mandate := env.vaccination_mandate_counter + 1 }
  | 5 =>
    { beta := beta_original.getD index 0 * 0.875,
      rate := env.economic_and_social_rate * 0.9965,
      no_npm_pm := 0, sdm := env.sdm_counter + 1, lockdown := 0,
      mask_mandate := env.mask_mandate_counter + 1, vaccination_mandate := 0 }
  | 6 =>
    { beta := beta_original.getD index 0 * 0.825,
      rate := env.economic_and_social_rate * 0.993,
      no_npm_pm := 0, sdm := env.sdm_counter + 1, lockdown := 0,
      mask_mandate := 0, vaccination_mandate := env.vaccination_mandate_counter + 1 }
  | 7 =>
    { beta := beta_original.getD index 0 * 0.75,
      rate := env.economic_and_social_rate * 0.994,
      no_npm_pm := 0, sdm := 0, lockdown := env.lockdown_counter + 1,
      mask_mandate := env.mask_mandate_counter + 1, vaccination_mandate := 0 }
  | 8 =>
    { beta := beta_original.getD index 0 * 0.80,
      rate := env.economic_and_social_rate * 0.993,
      no_npm_pm := 0, sdm := 0, lockdown := env.lockdown_counter + 1,
      mask_mandate := 0, vaccination_mandate := env.vaccination_mandate_counter + 1 }
  | 9 =>
    { beta := beta_original.getD index 0 * 0.90,
      rate := env.economic_and_social_rate * 0.9935,
      no_npm_pm := 0, sdm := 0, lockdown := 0,
      mask_mandate := env.mask_mandate_counter + 1,
      vaccination_mandate := env.vaccination_mandate_counter + 1 }
  | 10 =>
    { beta := beta_original.getD index 0 * 0.60,
      rate := env.economic_and_social_rate * 0.9925,
      no_npm_pm := 0, sdm := env.sdm_counter + 1, lockdown := 0,
      mask_mandate := env.mask_mandate_counter + 1,
      vaccination_mandate := env.vaccination_mandate_counter + 1 }
  | 11 =>
    { beta := beta_original.getD index 0 * 0.60,
      rate := env.economic_and_social_rate * 0.9925,
      no_npm_pm := 0, sdm := 0, lockdown := env.lockdown_counter + 1,
      mask_mandate := env.mask_mandate_counter + 1,
      vaccination_mandate := env.vaccination_mandate_counter + 1 }
  | _ =>
    { beta := env.beta, rate := env.economic_and_social_rate,
      no_npm_pm := env.no_npm_pm_counter, sdm := env.sdm_counter,
      lockdown := env.lockdown_counter, mask_mandate := env.mask_mandate_counter,
      vaccination_mandate := env.vaccination_mandate_counter }

/-- `step`, line 887: `action_association_list`, mapping each of the five
intervention types (no-npm-pm, sdm, lockdown, mask mandate, vaccination
mandate) to the numeric actions that include it. -/
def action_association_list : List (List ℕ) :=
  [[0], [1, 5, 6, 10], [2, 7, 8, 11], [3, 5, 7, 9, 10, 11], [4, 6, 8, 9, 10, 11]]

def assoc (i : ℕ) : List ℕ := action_association_list.getD i []

/-- `step`, lines 888-917: the three loops deriving the set of numerically
allowed actions from the per-intervention `allowed` and `required` flags.
`none` represents the Python `None`; the final branch's unconditional
`.difference` on a still-`None` value (which would raise in Python) is also
rendered as `none`. The Python sets are modelled as lists with
membership-based filtering. -/
def compute_actions_allowed (allowed required : List Bool) : Option (List ℕ) :=
  let afterRequired : Option (List ℕ) :=
    (List.range 5).foldl (fun acc i =>
      if required.getD i false then
        match acc with
        | none => some (assoc i)
        | some s => some (s.filter (fun x => decide (x ∈ assoc i)))
      else acc) none
  match afterRequired with
  | some s =>
    some ((List.range 5).foldl (fun s i =>
      if !(allowed.getD i false) && !(required.getD i false) then
        s.filter (fun x => decide (x ∉ assoc i))
      else s) s)
  | none =>
    let unionAllowed : Option (List ℕ) :=
      (List.range 5).foldl (fun acc i =>
        if allowed.getD i false then
          match acc with
          | none => some (assoc i)
          | some s => some (s ++ (assoc i).filter (fun x => decide (x ∉ s)))
        else acc) none
    match unionAllowed with
    | none => none
    | some s =>
      some ((List.range 5).foldl (fun s i =>
        if !(allowed.getD i false) then s.filter (fun x => decide (x ∉ assoc i))
        else s) s)

/-- `step`, lines 710-919: the duration-violation flags, per-intervention
`allowed`/`required` flags, and the final 12-entry 0/1 mask, all computed
from the five post-action counters. -/
def mask_from_counters (c0 c1 c2 c3 c4 : ℕ) :
    List Bool × List Bool × Option (List ℕ) :=
  let no_min := decide (0 < c0) && decide (c0 < min_no_npm_pm_period)
  let sdm_min := decide (0 < c1) && decide (c1 < min_sdm_period)
  let lock_min := decide (0 < c2) && decide (c2 < min_lockdown_period)
  let mask_min := decide (0 < c3) && decide (c3 < min_mask_mandate_period)
  let vacc_min := decide (0 < c4) && decide (c4 < min_vaccination_mandate_period)
  let no_max := decide (max_no_npm_pm_period ≤ c0)
  let sdm_max := decide (max_sdm_period ≤ c1)
  let lock_max := decide (max_lockdown_period ≤ c2)
  let mask_max := decide (max_mask_mandate_period ≤ c3)
  let vacc_max := decide (max_vaccination_mandate_period ≤ c4)
  let sdm_allowed := !no_min && !lock_min && !sdm_max
  let lockdown_allowed := !no_min && !sdm_min && !lock_max
  let mask_mandate_allowed := !no_min && !mask_max
  let vaccination_mandate_allowed := !no_min && !vacc_max
  let no_npm_pm_allowed := !sdm_min && !lock_min && !mask_min && !vacc_min && !no_max
  let allowed := [no_npm_pm_allowed, sdm_allowed, lockdown_allowed,
    mask_mandate_allowed, vaccination_mandate_allowed]
  let required := [no_min, sdm_min, lock_min, mask_min, vacc_min]
  let mask := (compute_actions_allowed allowed required).map (fun s =>
    (List.range 12).map (fun i => if i ∈ s then 1 else 0))
  (allowed, required, mask)

/-- The tuple returned by `step`: `(observation, reward, done, info)`,
together with the post-call instance state. `info` is the empty dict. -/
structure StepResult where
  env : EnvState
  observation : List ℚ
  reward : ℚ
  done : Bool

/-- `DiseaseMitigation.step` (lines 579-964). The Gaussian draws of the
embedded `compute_population_dynamics` call are the resolved record `d`;
`fpow` models the float power; `data` the historical dataset columns. -/
def step (env : EnvState) (action : ℕ) (d : Draws) (fpow : ℚ → ℚ → ℚ)
    (data : CovidData) : StepResult :=
  let history := env.action_history ++ [action]
  let previous_action := if history.length = 1 then 0 else history.getD (history.length - 2) 0
  let index := epoch_index env.timestep
  let fx := action_effects env action index
  let env1 : EnvState :=
    { env with
      action_history := history, previous_action := previous_action,
      current_action := action,
      beta := fx.beta, economic_and_social_rate := fx.rate,
      no_npm_pm_counter := fx.no_npm_pm, sdm_counter := fx.sdm,
      lockdown_counter := fx.lockdown, mask_mandate_counter := fx.mask_mandate,
      vaccination_mandate_counter := fx.vaccination_mandate }
  let env2 := compute_population_dynamics env1 action d fpow data
  let flags := mask_from_counters env2.no_npm_pm_counter env2.sdm_counter
    env2.lockdown_counter env2.mask_mandate_counter env2.vaccination_mandate_counter
  let reward : ℚ := -infection_coefficient * env2.infected / env2.population
    + env2.economic_and_social_rate
  let timestep2 := env.timestep + 1
  let observation : List ℚ := [env2.infected / env2.population,
    env2.economic_and_social_rate / 100, (previous_action : ℚ), (action : ℚ)]
  let done : Bool := decide ((0.99 : ℚ) * env2.population ≤ env2.infected)
    || decide (max_timesteps ≤ timestep2)
  { env := { env2 with
      allowed_actions := flags.1, required_actions := flags.2.1,
      allowed_actions_numbers := flags.2.2, timestep := timestep2 },
    observation := observation, reward := reward, done := done }

/-- A sequence of `step` calls, one `(action, draws)` pair per call. -/
def run_steps (env : EnvState) (steps : List (ℕ × Draws)) (fpow : ℚ → ℚ → ℚ)
    (data : CovidData) : EnvState :=
  steps.foldl (fun e ad => (step e ad.1 ad.2 fpow data).env) env

/-- Concrete sample inputs used by the witness theorems: a freshly reset
environment state (counters and history cleared, economic rate 100, mask
all ones) over a small population, together with an all-zero draw outcome,
a zero power function, and a zero-columns dataset. -/
def sampleEnv : EnvState :=
  { population := 1000, s_uv := 800, s_fv := 50, s_bv := 20,
    e_uv := 30, e_fv := 10, e_bv := 5, i_uv := 6, i_fv := 3, i_bv := 1,
    h_uv := 2, h_fv := 1, h_bv := 0, r_uv := 40, r_fv := 20, r_bv := 5,
    d_uv := 4, d_fv := 2, d_bv := 1,
    susceptible := 870, exposed := 45, infected := 10, hospitalized := 3,
    recovered := 65, deceased := 7, uv_total := 882, fv_total := 86, bv_total := 32,
    economic_and_social_rate := 100, beta := 0, timestep := 0,
    action_history := [], previous_action := 0, current_action := 0,
    no_npm_pm_counter := 0, sdm_counter := 0, lockdown_counter := 0,
    mask_mandate_counter := 0, vaccination_mandate_counter := 0,
    allowed_actions := [true, true, true, true, true],
    required_actions := [false, false, false, false, false],
    allowed_actions_numbers := some (List.replicate 12 1),
    new_cases := [] }

def sampleDraws : Draws :=
  { beta := 0, alpha := 0, delta_uv := 0, delta_fv := 0, delta_bv := 0,
    gamma_i_uv := 0, gamma_i_fv := 0, gamma_i_bv := 0,
    gamma_h_uv := 0, gamma_h_fv := 0, gamma_h_bv := 0,
    mu_i_uv := 0, mu_i_fv := 0, mu_i_bv := 0,
    mu_h_uv := 0, mu_h_fv := 0, mu_h_bv := 0,
    sigma_s_uv := 0, sigma_s_fv := 0, sigma_s_bv := 0,
    sigma_r_uv := 0, sigma_r_fv := 0, sigma_r_bv := 0,
    zeta_s_uv := 0, zeta_s_fv := 0, zeta_s_bv := 0,
    zeta_r_uv := 0, zeta_r_fv := 0, zeta_r_bv := 0 }

def samplePow : ℚ → ℚ → ℚ := fun _ _ => 0

def sampleData : CovidData := ⟨fun _ => 0, fun _ => 0⟩

/-- The five intervention run-length counters, indexed in the order of
`action_association_list`: no-npm-pm, sdm, lockdown, mask mandate,
vaccination mandate. -/
def counter (env : EnvState) : ℕ → ℕ
  | 0 => env.no_npm_pm_counter
  | 1 => env.sdm_counter
  | 2 => env.lockdown_counter
  | 3 => env.mask_mandate_counter
  | _ => env.vaccination_mandate_counter

/-- A draw outcome whose unvaccinated infected recovery rate sampled at 3
(an outcome in the support of the Gaussian); all other draws zero. -/
def overshootDraws : Draws := { sampleDraws with gamma_i_uv := 3 }

end EpidemicMitigation

namespace ParameterComputation

open EpidemicMitigation (pyInt)

/-- The lmfit `Parameters` object as read by `differential_equations`: one
rational per named parameter. The `rec_to_s*` entries are added with default
values on first use when absent (source lines 160-163); the record models a
parameter set in which they are always present. -/
structure Params where
  beta_i : ℚ
  alpha : ℚ
  zeta_uv : ℚ
  zeta_pv : ℚ
  zeta_fv : ℚ
  delta_uv : ℚ
  delta_pv : ℚ
  delta_fv : ℚ
  mu_i_uv : ℚ
  mu_i_pv : ℚ
  mu_i_fv : ℚ
  mu_h_uv : ℚ
  mu_h_pv : ℚ
  mu_h_fv : ℚ
  gamma_i_uv : ℚ
  gamma_i_pv : ℚ
  gamma_i_fv : ℚ
  gamma_h_uv : ℚ
  gamma_h_pv : ℚ
  gamma_h_fv : ℚ
  exp_to_s_uv : ℚ
  exp_to_s_pv : ℚ
  exp_to_s_fv : ℚ
  rec_to_s_uv : ℚ
  rec_to_s_fv : ℚ
  rec_to_s_pv : ℚ

/-- Pointwise accessors for `self.epidemiological_data`: the row count and
the three columns the ODE right-hand sides read via
`.iloc[min(int(t), len(self.epidemiological_data) - 1)]`. -/
structure EpiData where
  len : ℕ
  pctUVtoPV : ℤ → ℚ
  pctPVtoFV : ℤ → ℚ
  newCasesCol : ℤ → ℚ

/-- The clamped row index `min(int(t), len(self.epidemiological_data) - 1)`
used for every covariate lookup inside `differential_equations`. -/
def cov_index (data : EpiData) (t : ℚ) : ℤ := min (pyInt t) ((data.len : ℤ) - 1)

def p_uv_pv (data : EpiData) (t : ℚ) : ℚ := data.pctUVtoPV (cov_index data t)

def p_pv_fv (data : EpiData) (t : ℚ) : ℚ := data.pctPVtoFV (cov_index data t)

def new_cases_at (data : EpiData) (t : ℚ) : ℚ := data.newCasesCol (cov_index data t)

/-- The 18-component state vector of model versions 1-4:
`s_uv, s_pv, s_fv, e_uv, e_pv, e_fv, i_uv, i_pv, i_fv, h_uv, h_pv, h_fv,
r_uv, r_pv, r_fv, d_uv, d_pv, d_fv`. -/
structure Y18 where
  s_uv : ℚ
  s_pv : ℚ
  s_fv : ℚ
  e_uv : ℚ
  e_pv : ℚ
  e_fv : ℚ
  i_uv : ℚ
  i_pv : ℚ
  i_fv : ℚ
  h_uv : ℚ
  h_pv : ℚ
  h_fv : ℚ
  r_uv : ℚ
  r_pv : ℚ
  r_fv : ℚ
  d_uv : ℚ
  d_pv : ℚ
  d_fv : ℚ

/-- The 15-component state vector of model version 5 (no Hospitalized
compartment). -/
structure Y15 where
  s_uv : ℚ
  s_pv : ℚ
  s_fv : ℚ
  e_uv : ℚ
  e_pv : ℚ
  e_fv : ℚ
  i_uv : ℚ
  i_pv : ℚ
  i_fv : ℚ
  r_uv : ℚ
  r_pv : ℚ
  r_fv : ℚ
  d_uv : ℚ
  d_pv : ℚ
  d_fv : ℚ

/-- `differential_equations`, version 1 (lines 147-268): SEIQRD with
re-susceptibility from Recovered, independently computed exposure rate.
`fpow` models the float power in `total_infections ** alpha`. The
`gamma_h_uv` factors in `dr_pv_dt`/`dr_fv_dt` reproduce the source
verbatim (lines 253, 258). -/
def differential_equations_v1 (data : EpiData) (fpow : ℚ → ℚ → ℚ) (y : Y18)
    (t : ℚ) (population : ℚ) (p : Params) : Y18 :=
  let total_infections : ℚ := max (y.i_uv + y.i_pv + y.i_fv) 1
  let beta : ℚ := p.beta_i
  let ipow : ℚ := fpow total_infections p.alpha
  { s_uv := -beta * y.s_uv * ipow / population + p.exp_to_s_uv * y.e_uv
      + p.rec_to_s_uv * y.r_uv - p_uv_pv data t * y.s_uv,
    s_pv := -beta * y.s_pv * ipow / population + p.exp_to_s_pv * y.e_pv
      + p.rec_to_s_pv * y.r_pv + p_uv_pv data t * y.s_uv - p_pv_fv data t * y.s_pv,
    s_fv := -beta * y.s_fv * ipow / population + p.exp_to_s_fv * y.e_fv
      + p.rec_to_s_fv * y.r_fv + p_pv_fv data t * y.s_pv,
    e_uv := beta * y.s_uv * ipow / population - p.zeta_uv * y.e_uv
      - p.exp_to_s_uv * y.e_uv - p_uv_pv data t * y.e_uv,
    e_pv := beta * y.s_pv * ipow / population - p.zeta_pv * y.e_pv
      - p.exp_to_s_pv * y.e_pv + p_uv_pv data t * y.e_uv - p_pv_fv data t * y.e_pv,
    e_fv := beta * y.s_fv * ipow / population - p.zeta_fv * y.e_fv
      - p.exp_to_s_fv * y.e_fv + p_pv_fv data t * y.e_pv,
    i_uv := p.zeta_uv * y.e_uv - p.delta_uv * y.i_uv - p.gamma_i_uv * y.i_uv
      - p.mu_i_uv * y.i_uv + p_uv_pv data t * y.i_uv,
    i_pv := p.zeta_pv * y.e_pv - p.delta_pv * y.i_pv - p.gamma_i_pv * y.i_pv
      - p.mu_i_pv * y.i_pv - p_uv_pv data t * y.i_uv - p_pv_fv data t * y.i_pv,
    i_fv := p.zeta_fv * y.e_fv - p.delta_fv * y.i_fv - p.gamma_i_fv * y.i_fv
      - p.mu_i_fv * y.i_fv + p_pv_fv data t * y.i_pv,
    h_uv := p.delta_uv * y.i_uv - p.gamma_h_uv * y.h_uv - p.mu_h_uv * y.h_uv,
    h_pv := p.delta_pv * y.i_pv - p.gamma_h_pv * y.h_pv - p.mu_h_pv * y.h_pv,
    h_fv := p.delta_fv * y.i_fv - p.gamma_h_fv * y.h_fv - p.mu_h_fv * y.h_fv,
    r_uv := p.gamma_i_uv * y.i_uv + p.gamma_h_uv * y.h_uv - p.rec_to_s_uv * y.r_uv
      + p_uv_pv data t * y.r_uv,
    r_pv := p.gamma_i_pv * y.i_pv + p.gamma_h_uv * y.h_pv - p.rec_to_s_pv * y.r_pv
      - p_uv_pv data t * y.r_uv - p_pv_fv data t * y.r_pv,
    r_fv := p.gamma_i_fv * y.i_fv + p.gamma_h_uv * y.h_fv - p.rec_to_s_fv * y.r_fv
      + p_pv_fv data t * y.r_pv,
    d_uv := p.mu_i_uv * y.i_uv + p.mu_h_uv * y.h_uv,
    d_pv := p.mu_i_pv * y.i_pv + p.mu_h_pv * y.h_pv,
    d_fv := p.mu_i_fv * y.i_fv + p.mu_h_fv * y.h_fv }

/-- `differential_equations`, version 2 (lines 271-382): as version 1 but
without re-susceptibility from Recovered. -/
def differential_equations_v2 (data : EpiData) (fpow : ℚ → ℚ → ℚ) (y : Y18)
    (t : ℚ) (population : ℚ) (p : Params) : Y18 :=
  let total_infections : ℚ := max (y.i_uv + y.i_pv + y.i_fv) 1
  let beta : ℚ := p.beta_i
  let ipow : ℚ := fpow total_infections p.alpha
  { s_uv := -beta * y.s_uv * ipow / population + p.exp_to_s_uv * y.e_uv
      - p_uv_pv data t * y.s_uv,
    s_pv := -beta * y.s_pv * ipow / population + p.exp_to_s_pv * y.e_pv
      + p_uv_pv data t * y.s_uv - p_pv_fv data t * y.s_pv,
    s_fv := -beta * y.s_fv * ipow / population + p.exp_to_s_fv * y.e_fv
      + p_pv_fv data t * y.s_pv,
    e_uv := beta * y.s_uv * ipow / population - p.zeta_uv * y.e_uv
      - p.exp_to_s_uv * y.e_uv - p_uv_pv data t * y.e_uv,
    e_pv := beta * y.s_pv * ipow / population - p.zeta_pv * y.e_pv
      - p.exp_to_s_pv * y.e_pv + p_uv_pv data t * y.e_uv - p_pv_fv data t * y.e_pv,
    e_fv := beta * y.s_fv * ipow / population - p.zeta_fv * y.e_fv
      - p.exp_to_s_fv * y.e_fv + p_pv_fv data t * y.e_pv,
    i_uv := p.zeta_uv * y.e_uv - p.delta_uv * y.i_uv - p.gamma_i_uv * y.i_uv
      - p.mu_i_uv * y.i_uv + p_uv_pv data t * y.i_uv,
    i_pv := p.zeta_pv * y.e_pv - p.delta_pv * y.i_pv - p.gamma_i_pv * y.i_pv
      - p.mu_i_pv * y.i_pv - p_uv_pv data t * y.i_uv - p_pv_fv data t * y.i_pv,
    i_fv := p.zeta_fv * y.e_fv - p.delta_fv * y.i_fv - p.gamma_i_fv * y.i_fv
      - p.mu_i_fv * y.i_fv + p_pv_fv data t * y.i_pv,
    h_uv := p.delta_uv * y.i_uv - p.gamma_h_uv * y.h_uv - p.mu_h_uv * y.h_uv,
    h_pv := p.delta_pv * y.i_pv - p.gamma_h_pv * y.h_pv - p.mu_h_pv * y.h_pv,
    h_fv := p.delta_fv * y.i_fv - p.gamma_h_fv * y.h_fv - p.mu_h_fv * y.h_fv,
    r_uv := p.gamma_i_uv * y.i_uv + p.gamma_h_uv * y.h_uv + p_uv_pv data t * y.r_uv,
    r_pv := p.gamma_i_pv * y.i_pv + p.gamma_h_uv * y.h_pv
      - p_uv_pv data t * y.r_uv - p_pv_fv data t * y.r_pv,
    r_fv := p.gamma_i_fv * y.i_fv + p.gamma_h_uv * y.h_fv + p_pv_fv data t * y.r_pv,
    d_uv := p.mu_i_uv * y.i_uv + p.mu_h_uv * y.h_uv,
    d_pv := p.mu_i_pv * y.i_pv + p.mu_h_pv * y.h_pv,
    d_fv := p.mu_i_fv * y.i_fv + p.mu_h_fv * y.h_fv }

/-- `differential_equations`, version 3 (lines 385-508): as version 1 but
with the exposure rate scaled by the day's reported new-case count. -/
def differential_equations_v3 (data : EpiData) (fpow : ℚ → ℚ → ℚ) (y : Y18)
    (t : ℚ) (population : ℚ) (p : Params) : Y18 :=
  let total_infections : ℚ := max (y.i_uv + y.i_pv + y.i_fv) 1
  let beta : ℚ := p.beta_i * new_cases_at data t
  let ipow : ℚ := fpow total_infections p.alpha
  { s_uv := -beta * y.s_uv * ipow / population + p.exp_to_s_uv * y.e_uv
      + p.rec_to_s_uv * y.r_uv - p_uv_pv data t * y.s_uv,
    s_pv := -beta * y.s_pv * ipow / population + p.exp_to_s_pv * y.e_pv
      + p.rec_to_s_pv * y.r_pv + p_uv_pv data t * y.s_uv - p_pv_fv data t * y.s_pv,
    s_fv := -beta * y.s_fv * ipow / population + p.exp_to_s_fv * y.e_fv
      + p.rec_to_s_fv * y.r_fv + p_pv_fv data t * y.s_pv,
    e_uv := beta * y.s_uv * ipow / population - p.zeta_uv * y.e_uv
      - p.exp_to_s_uv * y.e_uv - p_uv_pv data t * y.e_uv,
    e_pv := beta * y.s_pv * ipow / population - p.zeta_pv * y.e_pv
      - p.exp_to_s_pv * y.e_pv + p_uv_pv data t * y.e_uv - p_pv_fv data t * y.e_pv,
    e_fv := beta * y.s_fv * ipow / population - p.zeta_fv * y.e_fv
      - p.exp_to_s_fv * y.e_fv + p_pv_fv data t * y.e_pv,
    i_uv := p.zeta_uv * y.e_uv - p.delta_uv * y.i_uv - p.gamma_i_uv * y.i_uv
      - p.mu_i_uv * y.i_uv + p_uv_pv data t * y.i_uv,
    i_pv := p.zeta_pv * y.e_pv - p.delta_pv * y.i_pv - p.gamma_i_pv * y.i_pv
      - p.mu_i_pv * y.i_pv - p_uv_pv data t * y.i_uv - p_pv_fv data t * y.i_pv,
    i_fv := p.zeta_fv * y.e_fv - p.delta_fv * y.i_fv - p.gamma_i_fv * y.i_fv
      - p.mu_i_fv * y.i_fv + p_pv_fv data t * y.i_pv,
    h_uv := p.delta_uv * y.i_uv - p.gamma_h_uv * y.h_uv - p.mu_h_uv * y.h_uv,
    h_pv := p.delta_pv * y.i_pv - p.gamma_h_pv * y.h_pv - p.mu_h_pv * y.h_pv,
    h_fv := p.delta_fv * y.i_fv - p.gamma_h_fv * y.h_fv - p.mu_h_fv * y.h_fv,
    r_uv := p.gamma_i_uv * y.i_uv + p.gamma_h_uv * y.h_uv - p.rec_to_s_uv * y.r_uv
      + p_uv_pv data t * y.r_uv,
    r_pv := p.gamma_i_pv * y.i_pv + p.gamma_h_uv * y.h_pv - p.rec_to_s_pv * y.r_pv
      - p_uv_pv data t * y.r_uv - p_pv_fv data t * y.r_pv,
    r_fv := p.gamma_i_fv * y.i_fv + p.gamma_h_uv * y.h_fv - p.rec_to_s_fv * y.r_fv
      + p_pv_fv data t * y.r_pv,
    d_uv := p.mu_i_uv * y.i_uv + p.mu_h_uv * y.h_uv,
    d_pv := p.mu_i_pv * y.i_pv + p.mu_h_pv * y.h_pv,
    d_fv := p.mu_i_fv * y.i_fv + p.mu_h_fv * y.h_fv }

/-- `differential_equations`, version 4 (lines 511-614): as version 2 but
with the exposure rate scaled by the day's new-case count and without the
vaccination-transition terms in the Infected equations. -/
def differential_equations_v4 (data : EpiData) (fpow : ℚ → ℚ → ℚ) (y : Y18)
    (t : ℚ) (population : ℚ) (p : Params) : Y18 :=
  let total_infections : ℚ := max (y.i_uv + y.i_pv + y.i_fv) 1
  let beta : ℚ := p.beta_i * new_cases_at data t
  let ipow : ℚ := fpow total_infections p.alpha
  { s_uv := -beta * y.s_uv * ipow / population + p.exp_to_s_uv * y.e_uv
      - p_uv_pv data t * y.s_uv,
    s_pv := -beta * y.s_pv * ipow / population + p.exp_to_s_pv * y.e_pv
      + p_uv_pv data t * y.s_uv - p_pv_fv data t * y.s_pv,
    s_fv := -beta * y.s_fv * ipow / population + p.exp_to_s_fv * y.e_fv
      + p_pv_fv data t * y.s_pv,
    e_uv := beta * y.s_uv * ipow / population - p.zeta_uv * y.e_uv
      - p.exp_to_s_uv * y.e_uv - p_uv_pv data t * y.e_uv,
    e_pv := beta * y.s_pv * ipow / population - p.zeta_pv * y.e_pv
      - p.exp_to_s_pv * y.e_pv + p_uv_pv data t * y.e_uv - p_pv_fv data t * y.e_pv,
    e_fv := beta * y.s_fv * ipow / population - p.zeta_fv * y.e_fv
      - p.exp_to_s_fv * y.e_fv + p_pv_fv data t * y.e_pv,
    i_uv := p.zeta_uv * y.e_uv - p.delta_uv * y.i_uv - p.gamma_i_uv * y.i_uv
      - p.mu_i_uv * y.i_uv,
    i_pv := p.zeta_pv * y.e_pv - p.delta_pv * y.i_pv - p.gamma_i_pv * y.i_pv
      - p.mu_i_pv * y.i_pv,
    i_fv := p.zeta_fv * y.e_fv - p.delta_fv * y.i_fv - p.gamma_i_fv * y.i_fv
      - p.mu_i_fv * y.i_fv,
    h_uv := p.delta_uv * y.i_uv - p.gamma_h_uv * y.h_uv - p.mu_h_uv * y.h_uv,
    h_pv := p.delta_pv * y.i_pv - p.gamma_h_pv * y.h_pv - p.mu_h_pv * y.h_pv,
    h_fv := p.delta_fv * y.i_fv - p.gamma_h_fv * y.h_fv - p.mu_h_fv * y.h_fv,
    r_uv := p.gamma_i_uv * y.i_uv + p.gamma_h_uv * y.h_uv + p_uv_pv data t * y.r_uv,
    r_pv := p.gamma_i_pv * y.i_pv + p.gamma_h_uv * y.h_pv
      - p_uv_pv data t * y.r_uv - p_pv_fv data t * y.r_pv,
    r_fv := p.gamma_i_fv * y.i_fv + p.gamma_h_uv * y.h_fv + p_pv_fv data t * y.r_pv,
    d_uv := p.mu_i_uv * y.i_uv + p.mu_h_uv * y.h_uv,
    d_pv := p.mu_i_pv * y.i_pv + p.mu_h_pv * y.h_pv,
    d_fv := p.mu_i_fv * y.i_fv + p.mu_h_fv * y.h_fv }

/-- `differential_equations`, version 5 (lines 617-703): no Hospitalized
compartment (15 components), no re-susceptibility from Recovered, exposure
rate scaled by the day's new-case count. -/
def differential_equations_v5 (data : EpiData) (fpow : ℚ → ℚ → ℚ) (y : Y15)
    (t : ℚ) (population : ℚ) (p : Params) : Y15 :=
  let total_infections : ℚ := max (y.i_uv + y.i_pv + y.i_fv) 1
  let beta : ℚ := p.beta_i * new_cases_at data t
  let ipow : ℚ := fpow total_infections p.alpha
  { s_uv := -beta * y.s_uv * ipow / population + p.exp_to_s_uv * y.e_uv
      - p_uv_pv data t * y.s_uv,
    s_pv := -beta * y.s_pv * ipow / population + p.exp_to_s_pv * y.e_pv
      + p_uv_pv data t * y.s_uv - p_pv_fv data t * y.s_pv,
    s_fv := -beta * y.s_fv * ipow / population + p.exp_to_s_fv * y.e_fv
      + p_pv_fv data t * y.s_pv,
    e_uv := beta * y.s_uv * ipow / population - p.zeta_uv * y.e_uv
      - p.exp_to_s_uv * y.e_uv - p_uv_pv data t * y.e_uv,
    e_pv := beta * y.s_pv * ipow / population - p.zeta_pv * y.e_pv
      - p.exp_to_s_pv * y.e_pv + p_uv_pv data t * y.e_uv - p_pv_fv data t * y.e_pv,
    e_fv := beta * y.s_fv * ipow / population - p.zeta_fv * y.e_fv
      - p.exp_to_s_fv * y.e_fv + p_pv_fv data t * y.e_pv,
    i_uv := p.zeta_uv * y.e_uv - p.gamma_i_uv * y.i_uv - p.mu_i_uv * y.i_uv,
    i_pv := p.zeta_pv * y.e_pv - p.gamma_i_pv * y.i_pv - p.mu_i_pv * y.i_pv,
    i_fv := p.zeta_fv * y.e_fv - p.gamma_i_fv * y.i_fv - p.mu_i_fv * y.i_fv,
    r_uv := p.gamma_i_uv * y.i_uv + p_uv_pv data t * y.r_uv,
    r_pv := p.gamma_i_pv * y.i_pv + -p_uv_pv data t * y.r_uv - p_pv_fv data t * y.r_pv,
    r_fv := p.gamma_i_fv * y.i_fv + p_pv_fv data t * y.r_pv,
    d_uv := p.mu_i_uv * y.i_uv,
    d_pv := p.mu_i_pv * y.i_pv,
    d_fv := p.mu_i_fv * y.i_fv }

/-- The stored configuration of a `ParameterComputation` instance that
`residual` reads: the initial condition `self.y0` (first observed row) and
`self.population`. -/
structure PCState where
  y0 : List ℚ
  population : ℚ

/-- `ode_solver` (lines 705-732): both branches hand the work to an
external scipy integrator (`odeint` / `solve_ivp`); the integrator is
modelled as an uninterpreted function from the initial condition, time
grid, population and parameters to the predicted trajectory, one row per
time point. -/
def ode_solver (integrator : List ℚ → List ℚ → ℚ → Params → List (List ℚ))
    (y0 : List ℚ) (t : List ℚ) (population : ℚ) (p : Params) : List (List ℚ) :=
  integrator y0 t population p

/-- `residual` (lines 734-753): integrate from the stored `self.y0`, then
return `(model_predictions.values - data).ravel()`. The numpy elementwise
subtraction of equal-shaped arrays followed by row-major ravel is modelled
by rowwise `zipWith` subtraction followed by `flatten`. -/
def residual (pc : PCState)
    (integrator : List ℚ → List ℚ → ℚ → Params → List (List ℚ))
    (p : Params) (t : List ℚ) (data : List (List ℚ)) : List ℚ :=
  let model_predictions := ode_solver integrator pc.y0 t pc.population p
  (List.zipWith (fun pr ob => List.zipWith (fun x y => x - y) pr ob)
    model_predictions data).flatten


/-- Concrete sample inputs for the calibration-engine witness theorems. -/
def wData : EpiData := ⟨1, fun _ => 0, fun _ => 0, fun _ => 0⟩

def wY18 : Y18 := ⟨0, 0, 0, 0, 0, 0, 0, 0, 0, 0, 0, 0, 0, 0, 0, 0, 0, 0⟩

def wParams : Params :=
  ⟨0, 0, 0, 0, 0, 0, 0, 0, 0, 0, 0, 0, 0, 0, 0, 0, 0, 0, 0, 0, 0, 0, 0, 0, 0, 0⟩


/-- A concrete integrator, time grid and observation table for the
`residual` witness. -/
def wIntegrator : List ℚ → List ℚ → ℚ → Params → List (List ℚ) :=
  fun _ _ _ _ => [[3, 4], [5, 6]]

def wPC : PCState := ⟨[1, 2], 10⟩

end ParameterComputation

namespace EpidemicMitigation

/-- Truncation toward zero of a non-negative rational is non-negative. -/
theorem pyInt_nonneg {q : ℚ} (h : 0 ≤ q) : (0 : ℚ) ≤ ((pyInt q : ℤ) : ℚ) := by
  have : (0 : ℤ) ≤ pyInt q := by
    unfold pyInt
    rw [if_pos h]
    exact Int.le_floor.2 (by exact_mod_cast h)
  exact_mod_cast this


/-- C10: for every elapsed timestep up to 180, the calibration-epoch index
`int(np.floor((timestep + 214) / 28))` lies in 7..14, hence strictly below
the length of every one of the 15-entry per-epoch parameter tables. -/
theorem epoch_index_in_table_bounds (t : ℕ) (h : t ≤ 180) :
    7 ≤ epoch_index t ∧ epoch_index t ≤ 14 ∧
      ∀ L ∈ all_parameter_tables, epoch_index t < L.length := by
  have hlen : ∀ L ∈ all_parameter_tables, L.length = 15 := by decide
  refine ⟨?_, ?_, ?_⟩
  · unfold epoch_index; omega
  · unfold epoch_index; omega
  · intro L hL
    rw [hlen L hL]
    unfold epoch_index; omega

theorem epoch_index_in_table_bounds_witness :
    7 ≤ epoch_index 0 ∧ epoch_index 0 ≤ 14 ∧
      ∀ L ∈ all_parameter_tables, epoch_index 0 < L.length :=
  epoch_index_in_table_bounds 0 (by decide)

/-- C1: `step` returns `done = True` exactly when, after the population
update and the timestep increment, the infected count is at least
`0.99 * population` or the elapsed timestep has reached the 181-step
horizon. -/
theorem step_done_iff_terminal (env : EnvState) (action : ℕ) (d : Draws)
    (fpow : ℚ → ℚ → ℚ) (data : CovidData) (hA : action < 12) :
    (step env action d fpow data).done = true ↔
      ((0.99 : ℚ) * env.population ≤ (step env action d fpow data).env.infected ∨
        max_timesteps ≤ (step env action d fpow data).env.timestep) := by
  simp only [step, compute_population_dynamics, Bool.or_eq_true, decide_eq_true_eq]

theorem step_done_iff_terminal_witness :
    (step sampleEnv 0 sampleDraws samplePow sampleData).done = true ↔
      ((0.99 : ℚ) * sampleEnv.population ≤
          (step sampleEnv 0 sampleDraws samplePow sampleData).env.infected ∨
        max_timesteps ≤ (step sampleEnv 0 sampleDraws samplePow sampleData).env.timestep) :=
  step_done_iff_terminal sampleEnv 0 sampleDraws samplePow sampleData (by decide)

/-- C2: the reward returned by `step` is
`-500000 * infected / population + economic_and_social_rate`, with the
post-update infected count and the rate as updated by this step. -/
theorem step_reward_eq (env : EnvState) (action : ℕ) (d : Draws)
    (fpow : ℚ → ℚ → ℚ) (data : CovidData) (hA : action < 12) :
    (step env action d fpow data).reward =
      -(500000 : ℚ) * (step env action d fpow data).env.infected / env.population
        + (step env action d fpow data).env.economic_and_social_rate := rfl

theorem step_reward_eq_witness :
    (step sampleEnv 3 sampleDraws samplePow sampleData).reward =
      -(500000 : ℚ) * (step sampleEnv 3 sampleDraws samplePow sampleData).env.infected
          / sampleEnv.population
        + (step sampleEnv 3 sampleDraws samplePow sampleData).env.economic_and_social_rate :=
  step_reward_eq sampleEnv 3 sampleDraws samplePow sampleData (by decide)

/-- C7: the unvaccinated-to-fully-vaccinated uptake rate applied by the
population update is the fixed historical average `0.007084760245099044`
exactly for actions 3, 5, 6, 7, and the day-specific dataset rate at row
`timestep + 214` for every other valid action; the updated unvaccinated
total witnesses which rate was used. -/
theorem step_uptake_rate_selection (env : EnvState) (action : ℕ) (d : Draws)
    (fpow : ℚ → ℚ → ℚ) (data : CovidData) (hA : action < 12) :
    (step env action d fpow data).env.uv_total =
      env.uv_total -
        (if action ∈ ([3, 5, 6, 7] : List ℕ) then (0.007084760245099044 : ℚ)
          else data.pctUVtoFV (env.timestep + 214)) * env.uv_total := by
  have hsel : select_pct_uv_to_fv action data env.timestep =
      if action ∈ ([3, 5, 6, 7] : List ℕ) then (0.007084760245099044 : ℚ)
        else data.pctUVtoFV (env.timestep + 214) := by
    simp only [select_pct_uv_to_fv, fixed_uv_to_fv_rate, List.mem_cons,
      List.not_mem_nil, or_false]
  calc (step env action d fpow data).env.uv_total
      = env.uv_total - select_pct_uv_to_fv action data env.timestep * env.uv_total := rfl
    _ = _ := by rw [hsel]

theorem step_uptake_rate_selection_witness :
    (step sampleEnv 5 sampleDraws samplePow sampleData).env.uv_total =
      sampleEnv.uv_total -
        (if 5 ∈ ([3, 5, 6, 7] : List ℕ) then (0.007084760245099044 : ℚ)
          else sampleData.pctUVtoFV (sampleEnv.timestep + 214)) * sampleEnv.uv_total :=
  step_uptake_rate_selection sampleEnv 5 sampleDraws samplePow sampleData (by decide)

end EpidemicMitigation

namespace EpidemicMitigation

/-- C4: after a `step` with a valid action, each intervention's run-length
counter is `previous + 1` when the action includes that intervention
(membership in `action_association_list`) and exactly `0` otherwise. -/
theorem step_counters_track_membership (env : EnvState) (action : ℕ) (d : Draws)
    (fpow : ℚ → ℚ → ℚ) (data : CovidData) (hA : action < 12) (i : ℕ) (hi : i < 5) :
    counter (step env action d fpow data).env i =
      if action ∈ assoc i then counter env i + 1 else 0 := by
  interval_cases action <;> interval_cases i <;> rfl

theorem step_counters_track_membership_witness :
    counter (step sampleEnv 5 sampleDraws samplePow sampleData).env 1 =
      if 5 ∈ assoc 1 then counter sampleEnv 1 + 1 else 0 :=
  step_counters_track_membership sampleEnv 5 sampleDraws samplePow sampleData
    (by decide) 1 (by decide)

/-- Helper: multiplying a value that is at most 100 by a factor in [0, 1]
keeps it at most 100. -/
theorem rate_mul_factor_le (r c : ℚ) (hc0 : 0 ≤ c) (hc1 : c ≤ 1) (h : r ≤ 100) :
    r * c ≤ 100 := by
  rcases le_total 0 r with hr | hr
  · calc r * c ≤ r * 1 := mul_le_mul_of_nonneg_left hc1 hr
      _ = r := mul_one r
      _ ≤ 100 := h
  · have hz : r * c ≤ 0 * c := mul_le_mul_of_nonneg_right hr hc0
    simp only [zero_mul] at hz
    linarith

/-- Helper: the per-action economic-and-social-rate update never produces a
value above 100 when starting at most 100. -/
theorem action_effects_rate_le (env : EnvState) (a idx : ℕ) (hA : a < 12)
    (h : env.economic_and_social_rate ≤ 100) :
    (action_effects env a idx).rate ≤ 100 := by
  interval_cases a
  · show (if env.infected / env.population < (0.001 : ℚ)
        then min (1.005 * env.economic_and_social_rate) 100
        else 0.999 * env.economic_and_social_rate) ≤ 100
    split
    · exact min_le_right _ _
    · rw [mul_comm]
      exact rate_mul_factor_le _ _ (by norm_num) (by norm_num) h
  · exact rate_mul_factor_le _ _ (by norm_num) (by norm_num) h
  · exact rate_mul_factor_le _ _ (by norm_num) (by norm_num) h
  · exact rate_mul_factor_le _ _ (by norm_num) (by norm_num) h
  · exact rate_mul_factor_le _ _ (by norm_num) (by norm_num) h
  · exact rate_mul_factor_le _ _ (by norm_num) (by norm_num) h
  · exact rate_mul_factor_le _ _ (by norm_num) (by norm_num) h
  · exact rate_mul_factor_le _ _ (by norm_num) (by norm_num) h
  · exact rate_mul_factor_le _ _ (by norm_num) (by norm_num) h
  · exact rate_mul_factor_le _ _ (by norm_num) (by norm_num) h
  · exact rate_mul_factor_le _ _ (by norm_num) (by norm_num) h
  · exact rate_mul_factor_le _ _ (by norm_num) (by norm_num) h

/-- Helper: one `step` with a valid action preserves the upper bound 100 of
the economic-and-social rate. -/
theorem step_rate_le (env : EnvState) (a : ℕ) (d : Draws) (fpow : ℚ → ℚ → ℚ)
    (data : CovidData) (hA : a < 12) (h : env.economic_and_social_rate ≤ 100) :
    (step env a d fpow data).env.economic_and_social_rate ≤ 100 := by
  have heq : (step env a d fpow data).env.economic_and_social_rate =
      (action_effects env a (epoch_index env.timestep)).rate := rfl
  rw [heq]
  exact action_effects_rate_le env a _ hA h

/-- C3: starting from the reset value 100, the economic-and-social rate is
at most 100 after any sequence of `step` calls with valid actions. -/
theorem economic_rate_never_exceeds_100 (env : EnvState)
    (steps : List (ℕ × Draws)) (fpow : ℚ → ℚ → ℚ) (data : CovidData)
    (h0 : env.economic_and_social_rate = 100)
    (hval : ∀ p ∈ steps, p.1 < 12) :
    (run_steps env steps fpow data).economic_and_social_rate ≤ 100 := by
  have inv : ∀ (l : List (ℕ × Draws)) (e : EnvState),
      e.economic_and_social_rate ≤ 100 → (∀ p ∈ l, p.1 < 12) →
      (run_steps e l fpow data).economic_and_social_rate ≤ 100 := by
    intro l
    induction l with
    | nil => intro e he _; simpa [run_steps] using he
    | cons hd tl ih =>
      intro e he hv
      have hstep := step_rate_le e hd.1 hd.2 fpow data
        (hv hd (List.mem_cons_self _ _)) he
      have hrun : run_steps e (hd :: tl) fpow data =
          run_steps (step e hd.1 hd.2 fpow data).env tl fpow data := rfl
      rw [hrun]
      exact ih _ hstep (fun p hp => hv p (List.mem_cons_of_mem _ hp))
  exact inv steps env (le_of_eq h0) hval

theorem economic_rate_never_exceeds_100_witness :
    (run_steps sampleEnv [(1, sampleDraws), (0, sampleDraws)] samplePow
        sampleData).economic_and_social_rate ≤ 100 :=
  economic_rate_never_exceeds_100 sampleEnv [(1, sampleDraws), (0, sampleDraws)]
    samplePow sampleData rfl (by decide)

end EpidemicMitigation

namespace EpidemicMitigation

/-- C6 counterexample: in a freshly reset environment (all counters zero,
mask all ones, so action 0 is legal), taking first action 0 yields an
allowed-actions mask whose entry for action 4 is 0, not 1: the
vaccination-mandate maximum period of 0 makes its maximum-duration
violation hold from the start, so action 4 is reported illegal. -/
theorem first_step_action4_mask_cex :
    sampleEnv.allowed_actions_numbers = some (List.replicate 12 1) ∧
    ((step sampleEnv 0 sampleDraws samplePow
        sampleData).env.allowed_actions_numbers.getD []).getD 4 1 = 0 := by
  refine ⟨rfl, ?_⟩
  have heq : (step sampleEnv 0 sampleDraws samplePow
      sampleData).env.allowed_actions_numbers =
      (mask_from_counters 1 0 0 0 0).2.2 := rfl
  rw [heq]
  decide

/-- C6 amended: after the first `step` of an episode (all five counters
zero beforehand) with any valid action, the allowed-actions mask entry for
action 4 (vaccination-mandate-only) is 0 — never 1 — because
`max_vaccination_mandate_period = 0` makes the vaccination-mandate
maximum-duration violation always true. -/
theorem first_step_action4_never_allowed (env : EnvState) (a : ℕ) (d : Draws)
    (fpow : ℚ → ℚ → ℚ) (data : CovidData)
    (h0 : env.no_npm_pm_counter = 0) (h1 : env.sdm_counter = 0)
    (h2 : env.lockdown_counter = 0) (h3 : env.mask_mandate_counter = 0)
    (h4 : env.vaccination_mandate_counter = 0) (hA : a < 12) :
    ((step env a d fpow data).env.allowed_actions_numbers.getD []).getD 4 1 = 0 := by
  interval_cases a
  · have heq : (step env 0 d fpow data).env.allowed_actions_numbers =
        (mask_from_counters (env.no_npm_pm_counter + 1) 0 0 0 0).2.2 := rfl
    rw [heq, h0]; decide
  · have heq : (step env 1 d fpow data).env.allowed_actions_numbers =
        (mask_from_counters 0 (env.sdm_counter + 1) 0 0 0).2.2 := rfl
    rw [heq, h1]; decide
  · have heq : (step env 2 d fpow data).env.allowed_actions_numbers =
        (mask_from_counters 0 0 (env.lockdown_counter + 1) 0 0).2.2 := rfl
    rw [heq, h2]; decide
  · have heq : (step env 3 d fpow data).env.allowed_actions_numbers =
        (mask_from_counters 0 0 0 (env.mask_mandate_counter + 1) 0).2.2 := rfl
    rw [heq, h3]; decide
  · have heq : (step env 4 d fpow data).env.allowed_actions_numbers =
        (mask_from_counters 0 0 0 0 (env.vaccination_mandate_counter + 1)).2.2 := rfl
    rw [heq, h4]; decide
  · have heq : (step env 5 d fpow data).env.allowed_actions_numbers =
        (mask_from_counters 0 (env.sdm_counter + 1) 0
          (env.mask_mandate_counter + 1) 0).2.2 := rfl
    rw [heq, h1, h3]; decide
  · have heq : (step env 6 d fpow data).env.allowed_actions_numbers =
        (mask_from_counters 0 (env.sdm_counter + 1) 0 0
          (env.vaccination_mandate_counter + 1)).2.2 := rfl
    rw [heq, h1, h4]; decide
  · have heq : (step env 7 d fpow data).env.allowed_actions_numbers =
        (mask_from_counters 0 0 (env.lockdown_counter + 1)
          (env.mask_mandate_counter + 1) 0).2.2 := rfl
    rw [heq, h2, h3]; decide
  · have heq : (step env 8 d fpow data).env.allowed_actions_numbers =
        (mask_from_counters 0 0 (env.lockdown_counter + 1) 0
          (env.vaccination_mandate_counter + 1)).2.2 := rfl
    rw [heq, h2, h4]; decide
  · have heq : (step env 9 d fpow data).env.allowed_actions_numbers =
        (mask_from_counters 0 0 0 (env.mask_mandate_counter + 1)
          (env.vaccination_mandate_counter + 1)).2.2 := rfl
    rw [heq, h3, h4]; decide
  · have heq : (step env 10 d fpow data).env.allowed_actions_numbers =
        (mask_from_counters 0 (env.sdm_counter + 1) 0
          (env.mask_mandate_counter + 1) (env.vaccination_mandate_counter + 1)).2.2 := rfl
    rw [heq, h1, h3, h4]; decide
  · have heq : (step env 11 d fpow data).env.allowed_actions_numbers =
        (mask_from_counters 0 0 (env.lockdown_counter + 1)
          (env.mask_mandate_counter + 1) (env.vaccination_mandate_counter + 1)).2.2 := rfl
    rw [heq, h2, h3, h4]; decide

theorem first_step_action4_never_allowed_witness :
    ((step sampleEnv 4 sampleDraws samplePow
        sampleData).env.allowed_actions_numbers.getD []).getD 4 1 = 0 :=
  first_step_action4_never_allowed sampleEnv 4 sampleDraws samplePow sampleData
    rfl rfl rfl rfl rfl (by decide)

end EpidemicMitigation

namespace EpidemicMitigation

/-- Truncation toward zero expressed through the floor alone. -/
theorem ceil_as_neg_floor (q : ℚ) : ⌈q⌉ = -⌊-q⌋ := by
  rw [← Int.ceil_neg, neg_neg]


/-- C5 counterexample: from a state with non-negative compartments, a
`step` whose Gaussian outcome has a large recovery rate drives the
unvaccinated infected count negative: the update truncates with `int()`
but never floors at 0. -/
theorem step_negative_compartment_cex :
    (0 : ℚ) ≤ sampleEnv.i_uv ∧
    (step sampleEnv 1 overshootDraws samplePow sampleData).env.i_uv < 0 := by
  constructor
  · norm_num [sampleEnv]
  · have heq : (step sampleEnv 1 overshootDraws samplePow sampleData).env.i_uv =
        ((pyInt (sampleEnv.i_uv + overshootDraws.zeta_s_uv * sampleEnv.e_uv
          + overshootDraws.zeta_r_uv * sampleEnv.e_uv
          - overshootDraws.delta_uv * sampleEnv.i_uv
          - overshootDraws.gamma_i_uv * sampleEnv.i_uv
          - overshootDraws.mu_i_uv * sampleEnv.i_uv) : ℤ) : ℚ) := rfl
    rw [heq]
    norm_num [sampleEnv, overshootDraws, sampleDraws, pyInt, ceil_as_neg_floor]

end EpidemicMitigation

namespace EpidemicMitigation

/-- C5 amended: the population update of `step` keeps every per-tier
sub-compartment count non-negative provided the Gaussian outcome is
non-negative and, for each sub-compartment, the day's total outflow
fraction is at most 1 (the Gaussian draws themselves do not guarantee
this, and the source applies `int()` truncation with no floor at 0). -/
theorem step_counts_nonneg_of_bounded_draws (env : EnvState) (action : ℕ)
    (d : Draws) (fpow : ℚ → ℚ → ℚ) (data : CovidData) (hA : action < 12)
    (hP : 0 < env.population)
    (hs1 : 0 ≤ env.s_uv) (hs2 : 0 ≤ env.s_fv) (hs3 : 0 ≤ env.s_bv)
    (he1 : 0 ≤ env.e_uv) (he2 : 0 ≤ env.e_fv) (he3 : 0 ≤ env.e_bv)
    (hi1 : 0 ≤ env.i_uv) (hi2 : 0 ≤ env.i_fv) (hi3 : 0 ≤ env.i_bv)
    (hh1 : 0 ≤ env.h_uv) (hh2 : 0 ≤ env.h_fv) (hh3 : 0 ≤ env.h_bv)
    (hr1 : 0 ≤ env.r_uv) (hr2 : 0 ≤ env.r_fv) (hr3 : 0 ≤ env.r_bv)
    (hd1 : 0 ≤ env.d_uv) (hd2 : 0 ≤ env.d_fv) (hd3 : 0 ≤ env.d_bv)
    (hb : 0 ≤ d.beta) (hip : 0 ≤ fpow env.infected d.alpha)
    (hss1 : 0 ≤ d.sigma_s_uv) (hss2 : 0 ≤ d.sigma_s_fv) (hss3 : 0 ≤ d.sigma_s_bv)
    (hsr1 : 0 ≤ d.sigma_r_uv) (hsr2 : 0 ≤ d.sigma_r_fv) (hsr3 : 0 ≤ d.sigma_r_bv)
    (hzs1 : 0 ≤ d.zeta_s_uv) (hzs2 : 0 ≤ d.zeta_s_fv) (hzs3 : 0 ≤ d.zeta_s_bv)
    (hzr1 : 0 ≤ d.zeta_r_uv) (hzr2 : 0 ≤ d.zeta_r_fv) (hzr3 : 0 ≤ d.zeta_r_bv)
    (hde1 : 0 ≤ d.delta_uv) (hde2 : 0 ≤ d.delta_fv) (hde3 : 0 ≤ d.delta_bv)
    (hgi1 : 0 ≤ d.gamma_i_uv) (hgi2 : 0 ≤ d.gamma_i_fv) (hgi3 : 0 ≤ d.gamma_i_bv)
    (hgh1 : 0 ≤ d.gamma_h_uv) (hgh2 : 0 ≤ d.gamma_h_fv) (hgh3 : 0 ≤ d.gamma_h_bv)
    (hmi1 : 0 ≤ d.mu_i_uv) (hmi2 : 0 ≤ d.mu_i_fv) (hmi3 : 0 ≤ d.mu_i_bv)
    (hmh1 : 0 ≤ d.mu_h_uv) (hmh2 : 0 ≤ d.mu_h_fv) (hmh3 : 0 ≤ d.mu_h_bv)
    (hpuf : 0 ≤ select_pct_uv_to_fv action data env.timestep)
    (hpfb : 0 ≤ data.pctFVtoBV (env.timestep + 214))
    (hOs1 : d.beta * fpow env.infected d.alpha / env.population
      + select_pct_uv_to_fv action data env.timestep ≤ 1)
    (hOs2 : d.beta * fpow env.infected d.alpha / env.population
      + data.pctFVtoBV (env.timestep + 214) ≤ 1)
    (hOs3 : d.beta * fpow env.infected d.alpha / env.population ≤ 1)
    (hOe1 : d.zeta_s_uv + d.zeta_r_uv + d.sigma_s_uv + d.sigma_r_uv
      + select_pct_uv_to_fv action data env.timestep ≤ 1)
    (hOe2 : d.zeta_s_fv + d.zeta_r_fv + d.sigma_s_fv + d.sigma_r_fv
      + data.pctFVtoBV (env.timestep + 214) ≤ 1)
    (hOe3 : d.zeta_s_bv + d.zeta_r_bv + d.sigma_s_bv + d.sigma_r_bv ≤ 1)
    (hOi1 : d.delta_uv + d.gamma_i_uv + d.mu_i_uv ≤ 1)
    (hOi2 : d.delta_fv + d.gamma_i_fv + d.mu_i_fv ≤ 1)
    (hOi3 : d.delta_bv + d.gamma_i_bv + d.mu_i_bv ≤ 1)
    (hOh1 : d.gamma_h_uv + d.mu_h_uv ≤ 1)
    (hOh2 : d.gamma_h_fv + d.mu_h_fv ≤ 1)
    (hOh3 : d.gamma_h_bv + d.mu_h_bv ≤ 1) :
    0 ≤ (step env action d fpow data).env.s_uv ∧
    0 ≤ (step env action d fpow data).env.s_fv ∧
    0 ≤ (step env action d fpow data).env.s_bv ∧
    0 ≤ (step env action d fpow data).env.e_uv ∧
    0 ≤ (step env action d fpow data).env.e_fv ∧
    0 ≤ (step env action d fpow data).env.e_bv ∧
    0 ≤ (step env action d fpow data).env.i_uv ∧
    0 ≤ (step env action d fpow data).env.i_fv ∧
    0 ≤ (step env action d fpow data).env.i_bv ∧
    0 ≤ (step env action d fpow data).env.h_uv ∧
    0 ≤ (step env action d fpow data).env.h_fv ∧
    0 ≤ (step env action d fpow data).env.h_bv ∧
    0 ≤ (step env action d fpow data).env.r_uv ∧
    0 ≤ (step env action d fpow data).env.r_fv ∧
    0 ≤ (step env action d fpow data).env.r_bv ∧
    0 ≤ (step env action d fpow data).env.d_uv ∧
    0 ≤ (step env action d fpow data).env.d_fv ∧
    0 ≤ (step env action d fpow data).env.d_bv := by
  have hq : ∀ x : ℚ, d.beta * x * fpow env.infected d.alpha / env.population
      = d.beta * fpow env.infected d.alpha / env.population * x := by
    intro x; ring
  simp only [step, compute_population_dynamics]
  refine ⟨?_, ?_, ?_, ?_, ?_, ?_, ?_, ?_, ?_, ?_, ?_, ?_, ?_, ?_, ?_, ?_, ?_, ?_⟩
  · apply pyInt_nonneg
    linarith [mul_le_mul_of_nonneg_right hOs1 hs1, mul_nonneg hss1 he1,
      hq env.s_uv]
  · apply pyInt_nonneg
    linarith [mul_le_mul_of_nonneg_right hOs2 hs2, mul_nonneg hss2 he2,
      mul_nonneg hpuf hs1, hq env.s_fv]
  · apply pyInt_nonneg
    linarith [mul_le_mul_of_nonneg_right hOs3 hs3, mul_nonneg hss3 he3,
      mul_nonneg hpfb hs2, hq env.s_bv]
  · apply pyInt_nonneg
    linarith [mul_le_mul_of_nonneg_right hOe1 he1,
      div_nonneg (mul_nonneg (mul_nonneg hb hs1) hip) hP.le,
      div_nonneg (mul_nonneg (mul_nonneg hb hr1) hip) hP.le]
  · apply pyInt_nonneg
    linarith [mul_le_mul_of_nonneg_right hOe2 he2,
      div_nonneg (mul_nonneg (mul_nonneg hb hs2) hip) hP.le,
      div_nonneg (mul_nonneg (mul_nonneg hb hr2) hip) hP.le,
      mul_nonneg hpuf he1]
  · apply pyInt_nonneg
    linarith [mul_le_mul_of_nonneg_right hOe3 he3,
      div_nonneg (mul_nonneg (mul_nonneg hb hs3) hip) hP.le,
      div_nonneg (mul_nonneg (mul_nonneg hb hr3) hip) hP.le,
      mul_nonneg hpfb he2]
  · apply pyInt_nonneg
    linarith [mul_le_mul_of_nonneg_right hOi1 hi1, mul_nonneg hzs1 he1,
      mul_nonneg hzr1 he1]
  · apply pyInt_nonneg
    linarith [mul_le_mul_of_nonneg_right hOi2 hi2, mul_nonneg hzs2 he2,
      mul_nonneg hzr2 he2]
  · apply pyInt_nonneg
    linarith [mul_le_mul_of_nonneg_right hOi3 hi3, mul_nonneg hzs3 he3,
      mul_nonneg hzr3 he3]
  · apply pyInt_nonneg
    linarith [mul_le_mul_of_nonneg_right hOh1 hh1, mul_nonneg hde1 hi1]
  · apply pyInt_nonneg
    linarith [mul_le_mul_of_nonneg_right hOh2 hh2, mul_nonneg hde2 hi2]
  · apply pyInt_nonneg
    linarith [mul_le_mul_of_nonneg_right hOh3 hh3, mul_nonneg hde3 hi3]
  · apply pyInt_nonneg
    linarith [mul_le_mul_of_nonneg_right hOs1 hr1, mul_nonneg hsr1 he1,
      mul_nonneg hgi1 hi1, mul_nonneg hgh1 hh1, hq env.r_uv]
  · apply pyInt_nonneg
    linarith [mul_le_mul_of_nonneg_right hOs2 hr2, mul_nonneg hsr2 he2,
      mul_nonneg hgi2 hi2, mul_nonneg hgh2 hh2, mul_nonneg hpuf hr1,
      hq env.r_fv]
  · apply pyInt_nonneg
    linarith [mul_le_mul_of_nonneg_right hOs3 hr3, mul_nonneg hsr3 he3,
      mul_nonneg hgi3 hi3, mul_nonneg hgh3 hh3, mul_nonneg hpfb hr2,
      hq env.r_bv]
  · apply pyInt_nonneg
    linarith [mul_nonneg hmi1 hi1, mul_nonneg hmh1 hh1]
  · apply pyInt_nonneg
    linarith [mul_nonneg hmi2 hi2, mul_nonneg hmh2 hh2]
  · apply pyInt_nonneg
    linarith [mul_nonneg hmi3 hi3, mul_nonneg hmh3 hh3]

theorem step_counts_nonneg_witness :
    0 ≤ (step sampleEnv 1 sampleDraws samplePow sampleData).env.s_uv ∧
    0 ≤ (step sampleEnv 1 sampleDraws samplePow sampleData).env.s_fv ∧
    0 ≤ (step sampleEnv 1 sampleDraws samplePow sampleData).env.s_bv ∧
    0 ≤ (step sampleEnv 1 sampleDraws samplePow sampleData).env.e_uv ∧
    0 ≤ (step sampleEnv 1 sampleDraws samplePow sampleData).env.e_fv ∧
    0 ≤ (step sampleEnv 1 sampleDraws samplePow sampleData).env.e_bv ∧
    0 ≤ (step sampleEnv 1 sampleDraws samplePow sampleData).env.i_uv ∧
    0 ≤ (step sampleEnv 1 sampleDraws samplePow sampleData).env.i_fv ∧
    0 ≤ (step sampleEnv 1 sampleDraws samplePow sampleData).env.i_bv ∧
    0 ≤ (step sampleEnv 1 sampleDraws samplePow sampleData).env.h_uv ∧
    0 ≤ (step sampleEnv 1 sampleDraws samplePow sampleData).env.h_fv ∧
    0 ≤ (step sampleEnv 1 sampleDraws samplePow sampleData).env.h_bv ∧
    0 ≤ (step sampleEnv 1 sampleDraws samplePow sampleData).env.r_uv ∧
    0 ≤ (step sampleEnv 1 sampleDraws samplePow sampleData).env.r_fv ∧
    0 ≤ (step sampleEnv 1 sampleDraws samplePow sampleData).env.r_bv ∧
    0 ≤ (step sampleEnv 1 sampleDraws samplePow sampleData).env.d_uv ∧
    0 ≤ (step sampleEnv 1 sampleDraws samplePow sampleData).env.d_fv ∧
    0 ≤ (step sampleEnv 1 sampleDraws samplePow sampleData).env.d_bv := by
  apply step_counts_nonneg_of_bounded_draws sampleEnv 1 sampleDraws samplePow
    sampleData <;>
    norm_num [sampleEnv, sampleDraws, samplePow, sampleData, select_pct_uv_to_fv]

end EpidemicMitigation

namespace ParameterComputation

/-- C8: in every model variant, the only base ever passed to the float
power in the force-of-infection term is `max (i_uv + i_pv + i_fv) 1`: two
power functions that agree on bases that are at least 1 give identical
right-hand sides, for every state vector, including those whose infected
components sum to zero or below. -/
theorem force_of_infection_floor (fpow g : ℚ → ℚ → ℚ)
    (hagree : ∀ b e : ℚ, 1 ≤ b → fpow b e = g b e) :
    (∀ (data : EpiData) (y : Y18) (t population : ℚ) (p : Params),
      differential_equations_v1 data fpow y t population p =
        differential_equations_v1 data g y t population p) ∧
    (∀ (data : EpiData) (y : Y18) (t population : ℚ) (p : Params),
      differential_equations_v2 data fpow y t population p =
        differential_equations_v2 data g y t population p) ∧
    (∀ (data : EpiData) (y : Y18) (t population : ℚ) (p : Params),
      differential_equations_v3 data fpow y t population p =
        differential_equations_v3 data g y t population p) ∧
    (∀ (data : EpiData) (y : Y18) (t population : ℚ) (p : Params),
      differential_equations_v4 data fpow y t population p =
        differential_equations_v4 data g y t population p) ∧
    (∀ (data : EpiData) (y : Y15) (t population : ℚ) (p : Params),
      differential_equations_v5 data fpow y t population p =
        differential_equations_v5 data g y t population p) := by
  refine ⟨?_, ?_, ?_, ?_, ?_⟩
  · intro data y t population p
    simp only [differential_equations_v1]
    rw [hagree (max (y.i_uv + y.i_pv + y.i_fv) 1) p.alpha (le_max_right _ _)]
  · intro data y t population p
    simp only [differential_equations_v2]
    rw [hagree (max (y.i_uv + y.i_pv + y.i_fv) 1) p.alpha (le_max_right _ _)]
  · intro data y t population p
    simp only [differential_equations_v3]
    rw [hagree (max (y.i_uv + y.i_pv + y.i_fv) 1) p.alpha (le_max_right _ _)]
  · intro data y t population p
    simp only [differential_equations_v4]
    rw [hagree (max (y.i_uv + y.i_pv + y.i_fv) 1) p.alpha (le_max_right _ _)]
  · intro data y t population p
    simp only [differential_equations_v5]
    rw [hagree (max (y.i_uv + y.i_pv + y.i_fv) 1) p.alpha (le_max_right _ _)]

theorem force_of_infection_floor_witness :
    differential_equations_v1 wData (fun b _ => b) wY18 0 1 wParams =
      differential_equations_v1 wData (fun b _ => max b 1) wY18 0 1 wParams :=
  (force_of_infection_floor (fun b _ => b) (fun b _ => max b 1)
    (fun b _ hb => (max_eq_left hb).symm)).1 wData wY18 0 1 wParams

end ParameterComputation

namespace ParameterComputation

/-- Pointwise characterization of `List.zipWith` lookups. -/
theorem zipWith_get? {α β γ : Type} (f : α → β → γ) :
    ∀ (l1 : List α) (l2 : List β) (j : ℕ),
      (List.zipWith f l1 l2).get? j =
        (l1.get? j).bind fun a => (l2.get? j).map (f a) := by
  intro l1
  induction l1 with
  | nil => intro l2 j; simp
  | cons a l1 ih =>
    intro l2 j
    cases l2 with
    | nil => cases j <;> simp
    | cons b l2 =>
      cases j with
      | zero => simp
      | succ j => simpa using ih l2 j

/-- Row-major indexing into the flattening of a list of equal-length rows. -/
theorem flatten_get?_uniform {α : Type} (m : ℕ) :
    ∀ (ll : List (List α)), (∀ r ∈ ll, r.length = m) →
      ∀ (i j : ℕ), j < m →
        ll.flatten.get? (i * m + j) = (ll.get? i).bind fun r => r.get? j := by
  intro ll
  induction ll with
  | nil => intro _ i j _; simp
  | cons r tl ih =>
    intro hm i j hj
    have hr : r.length = m := hm r (List.mem_cons_self _ _)
    cases i with
    | zero =>
      rw [List.flatten_cons, Nat.zero_mul, Nat.zero_add,
        List.get?_append (by omega)]
      simp
    | succ i =>
      have hlen : (i + 1) * m + j = r.length + (i * m + j) := by rw [hr]; ring
      rw [List.flatten_cons, hlen, List.get?_append_right (by omega),
        Nat.add_sub_cancel_left,
        ih (fun s hs => hm s (List.mem_cons_of_mem _ hs)) i j hj]
      simp

/-- A valid index yields `some` of the `getD` value. -/
theorem get?_eq_some_getD {α : Type} (l : List α) (i : ℕ) (dflt : α)
    (h : i < l.length) : l.get? i = some (l.getD i dflt) := by
  rw [List.getD_eq_get?]
  cases hh : l.get? i with
  | none => exact absurd (List.get?_eq_none.1 hh) (by omega)
  | some a => simp

/-- C9: `residual` returns the row-major flattening of the elementwise
difference `predicted - observed`, where `predicted` is the trajectory the
integrator produces from the stored initial condition `y0`: entry
`i * m + j` of the result is exactly `predicted[i][j] - observed[i][j]`. -/
theorem residual_entries (pc : PCState)
    (integrator : List ℚ → List ℚ → ℚ → Params → List (List ℚ)) (p : Params)
    (t : List ℚ) (data : List (List ℚ)) (m i j : ℕ)
    (hpredlen : ∀ r ∈ ode_solver integrator pc.y0 t pc.population p, r.length = m)
    (hdatalen : ∀ r ∈ data, r.length = m)
    (hi : i < (ode_solver integrator pc.y0 t pc.population p).length)
    (hi2 : i < data.length) (hj : j < m) :
    (residual pc integrator p t data).get? (i * m + j) =
      some (((ode_solver integrator pc.y0 t pc.population p).getD i []).getD j 0
        - (data.getD i []).getD j 0) := by
  have hrows : ∀ r ∈ List.zipWith (fun pr ob => List.zipWith (fun x y => x - y) pr ob)
      (ode_solver integrator pc.y0 t pc.population p) data, r.length = m := by
    intro r hr
    obtain ⟨k, hk⟩ := List.mem_iff_get?.1 hr
    rw [zipWith_get?] at hk
    cases hp : (ode_solver integrator pc.y0 t pc.population p).get? k with
    | none => rw [hp] at hk; simp at hk
    | some pr =>
      cases hd : data.get? k with
      | none => rw [hp, hd] at hk; simp at hk
      | some ob =>
        rw [hp, hd] at hk
        have hk2 : List.zipWith (fun x y => x - y) pr ob = r := by
          simpa using hk
        rw [← hk2, List.length_zipWith, hpredlen pr (List.get?_mem hp),
          hdatalen ob (List.get?_mem hd)]
        exact Nat.min_self m
  have hflat := flatten_get?_uniform m _ hrows i j hj
  have hpget : (ode_solver integrator pc.y0 t pc.population p).get? i =
      some ((ode_solver integrator pc.y0 t pc.population p).getD i []) :=
    get?_eq_some_getD _ i [] hi
  have hdget : data.get? i = some (data.getD i []) := get?_eq_some_getD _ i [] hi2
  have hprow : ((ode_solver integrator pc.y0 t pc.population p).getD i []) ∈
      ode_solver integrator pc.y0 t pc.population p := List.get?_mem hpget
  have hdrow : (data.getD i []) ∈ data := List.get?_mem hdget
  show (List.zipWith (fun pr ob => List.zipWith (fun x y => x - y) pr ob)
      (ode_solver integrator pc.y0 t pc.population p) data).flatten.get? (i * m + j) = _
  rw [hflat,
    zipWith_get? (fun pr ob => List.zipWith (fun x y => x - y) pr ob)
      (ode_solver integrator pc.y0 t pc.population p) data i,
    hpget, hdget]
  simp only [Option.map_some', Option.some_bind]
  rw [zipWith_get? (fun x y => x - y)
      ((ode_solver integrator pc.y0 t pc.population p).getD i []) (data.getD i []) j,
    get?_eq_some_getD _ j (0 : ℚ) (by rw [hpredlen _ hprow]; omega),
    get?_eq_some_getD _ j (0 : ℚ) (by rw [hdatalen _ hdrow]; omega)]
  simp

theorem residual_entries_witness :
    (residual wPC wIntegrator wParams [0, 1] [[1, 1], [1, 1]]).get? (1 * 2 + 0) =
      some (((ode_solver wIntegrator wPC.y0 [0, 1] wPC.population wParams).getD 1
          []).getD 0 0 - (([[1, 1], [1, 1]] : List (List ℚ)).getD 1 []).getD 0 0) := by
  apply residual_entries wPC wIntegrator wParams [0, 1] [[1, 1], [1, 1]] 2 1 0 <;>
    decide

end ParameterComputation
